import Mathlib

/-!
Shallow embedding of the prompt-orchestration core of the legal-intelligence
dashboard (`src/app.py`, class `LegalAIAnalyzer`).

Modelling conventions:
* Python `str` is modelled as Lean `String`; Python slicing `s[:n]` is by code
  points, so it is modelled on the character list (`pySlice`), and `len`/`strip`
  likewise (`pyStrip`).
* A parsed JSON value (the result of `json.loads`) is modelled by `JVal`.
  Python `None` and JSON `null` are identified (both are `None` in Python).
* Every LLM request made through `client.chat.completions.create` followed by
  `json.loads` is modelled as one call to an abstract `Backend` field.  The
  prompt templates are fixed strings with placeholders; a backend field takes
  exactly the values substituted into the template at that call site, so a
  deterministic stub backend is a plain Lean function.  An exception raised by
  the client, or a JSON parse failure of the response, is `Except.error`.
* `hashlib.md5(..).hexdigest()` is an external library primitive; it is passed
  in as a function parameter `md5hex : String → String`.
* Dict operations that can raise in Python (`.get` on a non-dict, `+` on
  non-lists, `>` against a non-number, `', '.join` of non-strings, indexing a
  missing key) are modelled in `Except String`, since in the source they occur
  inside the same `try` block as the backend calls and are recovered by the
  same `except` handler.
-/

namespace LegalAI

/-- A parsed JSON value (`json.loads` output).  `null` also stands for Python
`None`, e.g. the result of `d.get(k)` for a missing key. -/
inductive JVal where
  | null : JVal
  | bool : Bool → JVal
  | num  : Rat → JVal
  | str  : String → JVal
  | arr  : List JVal → JVal
  | obj  : List (String × JVal) → JVal

/-- Lookup in an association list modelling a Python dict. -/
def jlookup : List (String × JVal) → String → Option JVal
  | [], _ => none
  | (k, v) :: rest, key => if k = key then some v else jlookup rest key

/-- Python dict assignment `d[k] = v`: overwrite in place if the key exists
(keeping its insertion position), otherwise append. -/
def dictInsert : List (String × JVal) → String → JVal → List (String × JVal)
  | [], key, v => [(key, v)]
  | (k, w) :: rest, key, v =>
      if k = key then (k, v) :: rest else (k, w) :: dictInsert rest key v

/-- Python slicing `s[:n]` (by code points). -/
def pySlice (s : String) (n : Nat) : String := String.mk (s.data.take n)

def isPySpace (c : Char) : Bool := c.isWhitespace

/-- Python `s.strip()`: remove leading and trailing whitespace. -/
def pyStrip (s : String) : String :=
  String.mk (((s.data.dropWhile isPySpace).reverse.dropWhile isPySpace).reverse)

/-- Python `len(s)` for a string (number of code points). -/
def pyLen (s : String) : Nat := s.data.length

/-- Python `d.get(key, default)`.  Raises `AttributeError` when the receiver is
not a dict. -/
def JVal.pyGet (v : JVal) (key : String) (dflt : JVal) : Except String JVal :=
  match v with
  | .obj kvs => .ok ((jlookup kvs key).getD dflt)
  | _ => .error "AttributeError: object has no attribute get"

/-- Python `d.get(key)` (no default: missing key yields `None`). -/
def JVal.pyGetOpt (v : JVal) (key : String) : Except String JVal :=
  v.pyGet key .null

/-- Python `d[key]` indexing on a parsed value. -/
def JVal.pyIndex (v : JVal) (key : String) : Except String JVal :=
  match v with
  | .obj kvs =>
      match jlookup kvs key with
      | some w => .ok w
      | none => .error "KeyError"
  | _ => .error "TypeError: value is not subscriptable by string"

/-- A rational literal in reduced constructor form (so that the kernel can
evaluate comparisons on it; `n / d` through `Rat.div` would normalize via
`Nat.gcd`, which does not reduce definitionally). -/
def ratVal (n : Int) (d : Nat) (h1 : d ≠ 0) (h2 : n.natAbs.Coprime d) : Rat :=
  ⟨n, d, h1, h2⟩

/-- The float literal `0.3` (relevance threshold in `ai_powered_search`). -/
def ratPoint3 : Rat := ratVal 3 10 (by decide) (by norm_num)

/-- The float literal `0.7` (key-point importance threshold in
`generate_ai_summary`; hardcoded confidence in `assess_compliance_impact`). -/
def ratPoint7 : Rat := ratVal 7 10 (by decide) (by norm_num)

/-- The float literal `0.8` (hardcoded confidence in
`extract_document_structure`). -/
def ratPoint8 : Rat := ratVal 4 5 (by decide) (by norm_num)

/-- Python truthiness of a parsed JSON value. -/
def pyTruthy : JVal → Bool
  | .null => false
  | .bool b => b
  | .num q => q != 0
  | .str s => s != ""
  | .arr xs => !xs.isEmpty
  | .obj kvs => !kvs.isEmpty

/-- Coerce a value to a number the way Python comparison operators accept one
(`bool` is an `int` subtype); anything else raises `TypeError`. -/
def pyNumOf : JVal → Except String Rat
  | .num q => .ok q
  | .bool b => .ok (if b then 1 else 0)
  | _ => .error "TypeError: unsupported operand type for comparison"

/-- Python `v > q` against a numeric literal. -/
def pyGtLit (v : JVal) (q : Rat) : Except String Bool := do
  let a ← pyNumOf v
  pure (decide (q < a))

/-- Python `', '.join(xs)` style join: every element must be a string. -/
def pyJoinStrs (sep : String) : List JVal → Except String (List String)
  | [] => .ok []
  | .str s :: rest => do
      let tail ← pyJoinStrs sep rest
      pure (s :: tail)
  | _ :: _ => .error "TypeError: sequence item is not a string"

def pyJoin (sep : String) (v : JVal) : Except String String :=
  match v with
  | .arr xs => do
      let parts ← pyJoinStrs sep xs
      pure (String.intercalate sep parts)
  | _ => .error "TypeError: can only join an iterable of strings"

/-- Python `a + b` for two parsed values, used on lists. -/
def pyListAdd (a b : JVal) : Except String JVal :=
  match a, b with
  | .arr xs, .arr ys => .ok (.arr (xs ++ ys))
  | _, _ => .error "TypeError: unsupported operand types for +"

/-- Character-list splitter for Python `s.split(sep)` with a one-character
separator: split on every occurrence, never collapsing. -/
def pySplitChars (sep : Char) : List Char → List String
  | [] => [""]
  | c :: rest =>
      let tail := pySplitChars sep rest
      if c = sep then "" :: tail
      else
        match tail with
        | [] => [String.mk [c]]
        | t :: ts => (String.mk (c :: t.data)) :: ts

/-- Python `s.split('|')`; raises `AttributeError` when the receiver is not a
string. -/
def pySplitBar (v : JVal) : Except String (List String) :=
  match v with
  | .str s => .ok (pySplitChars '|' s.data)
  | _ => .error "AttributeError: object has no attribute split"

/-- Python `str(v)` as used inside f-strings.  Exact for strings (the only
case the source exercises on its scalar fields); renderings of the other
shapes are simple approximations of the Python `repr`-based forms and are
never inspected by any theorem below. -/
def pyStr : JVal → String
  | .str s => s
  | .null => "None"
  | .bool true => "True"
  | .bool false => "False"
  | .num q => toString q
  | .arr _ => "[...]"
  | .obj _ => "\x7b...\x7d"

/-- Python `'High' in xs` style membership: `in` compares with `==`, and a
string compares unequal to every non-string JSON value. -/
def jvalEqStr (v : JVal) (s : String) : Bool :=
  match v with
  | .str t => t = s
  | _ => false

/-- One backend request, tagged by its call site (which prompt template was
filled in).  The compliance-loop tags carry the sector being processed. -/
inductive CallTag where
  | comprehensiveAnalysis : CallTag
  | semanticMatch : CallTag
  | relevanceScoring : CallTag
  | excerptExtraction : CallTag
  | regulationDetection : CallTag
  | relationshipClassification : CallTag
  | temporalExtraction : CallTag
  | evolutionIndicators : CallTag
  | documentTypeStep : CallTag
  | mainPurposeStep : CallTag
  | keyPointsStep : CallTag
  | legalDomainsStep : CallTag
  | sectionDetection : CallTag
  | articleExtraction : CallTag
  | sectorRelevance : String → CallTag
  | sectorRequirements : String → CallTag
  | sectorComplexity : String → CallTag
deriving DecidableEq

/-- The LLM client together with the prompt-template registry, abstracted per
call site: each field receives exactly the strings substituted into that call
site's template and returns the parsed JSON response, or an error when the
request raises or its payload fails to parse as JSON.  A `Backend` is a
function of the substituted values only, hence deterministic. -/
structure Backend where
  comprehensive : String → Except String JVal
  searchSemantic : String → String → Except String JVal
  searchRelevance : String → String → Except String JVal
  searchExcerpt : String → String → Except String JVal
  trackDetection : String → String → Except String JVal
  trackRelationship : String → String → Except String JVal
  trackTemporal : String → String → Except String JVal
  trackEvolution : String → String → Except String JVal
  summaryType : String → Except String JVal
  summaryPurpose : String → Except String JVal
  summaryPoints : String → Except String JVal
  summaryDomains : String → Except String JVal
  structureSections : String → Except String JVal
  structureArticles : String → Except String JVal
  complianceRelevance : String → String → Except String JVal
  complianceRequirements : String → String → Except String JVal
  complianceComplexity : String → String → Except String JVal

/-- `st.session_state.ai_analysis_cache`. -/
abbrev Cache := List (String × JVal)

/-- Observable outcome of one public operation: the returned result, the cache
after the call, and the backend calls made (in order). -/
structure OpOutcome where
  result : JVal
  cache : Cache
  calls : List CallTag

/-- `LegalAIAnalyzer.create_cache_key`:
`content_hash = hashlib.md5(text[:1000].encode()).hexdigest()`;
`return f"{analysis_type}_{content_hash}"`. -/
def create_cache_key (md5hex : String → String) (text analysis_type : String) :
    String :=
  analysis_type ++ "_" ++ md5hex (pySlice text 1000)

/-- `LegalAIAnalyzer.create_fallback_analysis`. -/
def create_fallback_analysis (error_message : String) : JVal :=
  .obj [
    ("document_metadata", .obj [
      ("title", .str "Analysis unavailable"),
      ("document_type", .str "Other"),
      ("reference_number", .str "Not specified"),
      ("confidence_score", .num 0)]),
    ("summary", .obj [
      ("executive_summary", .str error_message),
      ("key_points", .arr [.str "Analysis failed"]),
      ("confidence_score", .num 0)]),
    ("overall_confidence", .num 0),
    ("error", .str error_message)]

/-- Body of the `try` block of `comprehensive_document_analysis`: one backend
call; on success the parsed response is cached verbatim and returned. -/
def comprehensiveBody (b : Backend) (cache : Cache) (cache_key : String)
    (document_text : String) : Except String (JVal × Cache) × List CallTag :=
  match b.comprehensive (pySlice document_text 4000) with
  | .error e => (.error e, [.comprehensiveAnalysis])
  | .ok analysis =>
      (.ok (analysis, dictInsert cache cache_key analysis),
       [.comprehensiveAnalysis])

/-- `LegalAIAnalyzer.comprehensive_document_analysis`. -/
def comprehensive_document_analysis (md5hex : String → String) (b : Backend)
    (cache : Cache) (document_text : String) : OpOutcome :=
  if document_text = "" ∨ pyLen (pyStrip document_text) < 50 then
    ⟨create_fallback_analysis "Document text too short or empty", cache, []⟩
  else
    let cache_key := create_cache_key md5hex document_text "comprehensive"
    match jlookup cache cache_key with
    | some v => ⟨v, cache, []⟩
    | none =>
        match comprehensiveBody b cache cache_key document_text with
        | (.ok (analysis, cache'), calls) => ⟨analysis, cache', calls⟩
        | (.error e, calls) =>
            ⟨create_fallback_analysis ("AI analysis failed: " ++ e), cache,
             calls⟩

/-- The inline degraded result of `ai_powered_search`'s `except` branch. -/
def searchErrorResult (e : String) : JVal :=
  .obj [("relevance_score", .num 0), ("is_relevant", .bool false),
        ("error", .str e)]

/-- The `# Combine results` dict of `ai_powered_search`.  `isRel` is the value
of `relevance_result.get('relevance_score', 0) > 0.3`, computed once (the
source evaluates the same deterministic expression at the step-3 guard and at
the `is_relevant` field). -/
def searchMergeResult (search_query : String)
    (semantic_result relevance_result excerpts : JVal) (isRel : Bool) :
    Except String JVal :=
  match relevance_result.pyGet "relevance_score" (.num 0) with
  | .error e => .error e
  | .ok rs =>
    match semantic_result.pyGet "matched_concepts" (.arr []) with
    | .error e => .error e
    | .ok mc =>
      match excerpts.pyGet "relevant_excerpts" (.arr []) with
      | .error e => .error e
      | .ok re =>
        match relevance_result.pyGet "relevance_category" (.str "Not Relevant")
            with
        | .error e => .error e
        | .ok rc =>
          match semantic_result.pyGet "semantic_similarity_score" (.num 0) with
          | .error e => .error e
          | .ok cs =>
            .ok (.obj [
              ("relevance_score", rs),
              ("is_relevant", .bool isRel),
              ("matching_concepts", mc),
              ("relevant_excerpts", re),
              ("explanation", .str (pyStr rc ++ " match for " ++ search_query)),
              ("confidence_score", cs)])

/-- Body of the `try` block of `ai_powered_search`: semantic match, relevance
scoring, then excerpt extraction only when the relevance score exceeds 0.3. -/
def searchBody (b : Backend) (cache : Cache) (cache_key : String)
    (document_text search_query : String) :
    Except String (JVal × Cache) × List CallTag :=
  match b.searchSemantic search_query (pySlice document_text 1500) with
  | .error e => (.error e, [.semanticMatch])
  | .ok semantic_result =>
    match semantic_result.pyGet "matched_concepts" (.arr []) with
    | .error e => (.error e, [.semanticMatch])
    | .ok mc =>
      match pyJoin ", " mc with
      | .error e => (.error e, [.semanticMatch])
      | .ok concepts_str =>
        match b.searchRelevance search_query concepts_str with
        | .error e => (.error e, [.semanticMatch, .relevanceScoring])
        | .ok relevance_result =>
          match relevance_result.pyGet "relevance_score" (.num 0) with
          | .error e => (.error e, [.semanticMatch, .relevanceScoring])
          | .ok score =>
            match pyGtLit score ratPoint3 with
            | .error e => (.error e, [.semanticMatch, .relevanceScoring])
            | .ok isRel =>
              if isRel then
                match b.searchExcerpt search_query (pySlice document_text 2000)
                    with
                | .error e =>
                    (.error e,
                     [.semanticMatch, .relevanceScoring, .excerptExtraction])
                | .ok excerpts =>
                  match searchMergeResult search_query semantic_result
                      relevance_result excerpts isRel with
                  | .error e =>
                      (.error e,
                       [.semanticMatch, .relevanceScoring, .excerptExtraction])
                  | .ok result =>
                      (.ok (result, dictInsert cache cache_key result),
                       [.semanticMatch, .relevanceScoring, .excerptExtraction])
              else
                match searchMergeResult search_query semantic_result
                    relevance_result
                    (.obj [("relevant_excerpts", .arr []),
                           ("excerpt_relevance_scores", .arr [])]) isRel with
                | .error e => (.error e, [.semanticMatch, .relevanceScoring])
                | .ok result =>
                    (.ok (result, dictInsert cache cache_key result),
                     [.semanticMatch, .relevanceScoring])

/-- `LegalAIAnalyzer.ai_powered_search`. -/
def ai_powered_search (md5hex : String → String) (b : Backend) (cache : Cache)
    (document_text search_query : String) : OpOutcome :=
  let cache_key :=
    create_cache_key md5hex (pySlice document_text 500 ++ "_" ++ search_query)
      "search"
  match jlookup cache cache_key with
  | some v => ⟨v, cache, []⟩
  | none =>
      match searchBody b cache cache_key document_text search_query with
      | (.ok (result, cache'), calls) => ⟨result, cache', calls⟩
      | (.error e, calls) => ⟨searchErrorResult e, cache, calls⟩

/-- The inline degraded result of `ai_regulatory_tracking`'s `except` branch. -/
def trackingErrorResult (e : String) : JVal :=
  .obj [("relevance_score", .num 0), ("is_related", .bool false),
        ("error", .str e)]

/-- The early return of `ai_regulatory_tracking` when the detection step finds
no mention of the regulation.  It is not written to the cache. -/
def trackingEarlyResult (confidence : JVal) : JVal :=
  .obj [("relevance_score", .num 0), ("is_related", .bool false),
        ("relationship_type", .str "None"), ("confidence_score", confidence)]

/-- `related_concepts` derivation:
`detection.get('mention_type', '').split('|') if detection.get('mention_type')
else []`. -/
def trackingRelatedConcepts (detection : JVal) : Except String JVal :=
  match detection.pyGetOpt "mention_type" with
  | .error e => .error e
  | .ok mt =>
    if pyTruthy mt then
      match detection.pyGet "mention_type" (.str "") with
      | .error e => .error e
      | .ok mt2 =>
        match pySplitBar mt2 with
        | .error e => .error e
        | .ok parts => .ok (.arr (parts.map JVal.str))
    else .ok (.arr [])

/-- The `# Combine results` dict of `ai_regulatory_tracking` (full path). -/
def trackingMergeResult (detection relationship temporal evolution : JVal) :
    Except String JVal :=
  match relationship.pyGet "relationship_strength" (.num 0) with
  | .error e => .error e
  | .ok rs =>
    match relationship.pyGet "relationship_type" (.str "Related topic") with
    | .error e => .error e
    | .ok rt =>
      match trackingRelatedConcepts detection with
      | .error e => .error e
      | .ok rc =>
        match temporal.pyGet "dates_mentioned" (.arr []) with
        | .error e => .error e
        | .ok dm =>
          match temporal.pyGet "deadlines" (.arr []) with
          | .error e => .error e
          | .ok dl =>
            match pyListAdd dm dl with
            | .error e => .error e
            | .ok tr =>
              match evolution.pyGet "evolution_indicators" (.arr []) with
              | .error e => .error e
              | .ok ev =>
                match evolution.pyGet "importance" (.str "Medium") with
                | .error e => .error e
                | .ok im =>
                  match detection.pyGet "confidence" (.num 0) with
                  | .error e => .error e
                  | .ok cf =>
                    .ok (.obj [
                      ("relevance_score", rs),
                      ("is_related", .bool true),
                      ("relationship_type", rt),
                      ("specific_mentions", .arr []),
                      ("related_concepts", rc),
                      ("temporal_references", tr),
                      ("evolution_indicators", ev),
                      ("importance", im),
                      ("confidence_score", cf)])

/-- Body of the `try` block of `ai_regulatory_tracking`: detection, then — only
when a mention is detected — relationship classification, temporal extraction,
evolution indicators.  The early "no mention" return skips the cache write. -/
def trackingBody (b : Backend) (cache : Cache) (cache_key : String)
    (document_text regulation_topic : String) :
    Except String (JVal × Cache) × List CallTag :=
  match b.trackDetection regulation_topic (pySlice document_text 2000) with
  | .error e => (.error e, [.regulationDetection])
  | .ok detection =>
    match detection.pyGetOpt "mentions_regulation" with
    | .error e => (.error e, [.regulationDetection])
    | .ok mr =>
      if pyTruthy mr then
        match b.trackRelationship regulation_topic (pySlice document_text 1500)
            with
        | .error e => (.error e, [.regulationDetection,
                                  .relationshipClassification])
        | .ok relationship =>
          match b.trackTemporal regulation_topic (pySlice document_text 2000)
              with
          | .error e => (.error e, [.regulationDetection,
                                    .relationshipClassification,
                                    .temporalExtraction])
          | .ok temporal =>
            match b.trackEvolution regulation_topic
                (pySlice document_text 2000) with
            | .error e => (.error e, [.regulationDetection,
                                      .relationshipClassification,
                                      .temporalExtraction,
                                      .evolutionIndicators])
            | .ok evolution =>
              match trackingMergeResult detection relationship temporal
                  evolution with
              | .error e => (.error e, [.regulationDetection,
                                        .relationshipClassification,
                                        .temporalExtraction,
                                        .evolutionIndicators])
              | .ok result =>
                  (.ok (result, dictInsert cache cache_key result),
                   [.regulationDetection, .relationshipClassification,
                    .temporalExtraction, .evolutionIndicators])
      else
        match detection.pyGet "confidence" (.num 0) with
        | .error e => (.error e, [.regulationDetection])
        | .ok conf =>
            (.ok (trackingEarlyResult conf, cache), [.regulationDetection])

/-- `LegalAIAnalyzer.ai_regulatory_tracking`. -/
def ai_regulatory_tracking (md5hex : String → String) (b : Backend)
    (cache : Cache) (document_text regulation_topic : String) : OpOutcome :=
  let cache_key :=
    create_cache_key md5hex
      (pySlice document_text 500 ++ "_" ++ regulation_topic) "tracking"
  match jlookup cache cache_key with
  | some v => ⟨v, cache, []⟩
  | none =>
      match trackingBody b cache cache_key document_text regulation_topic with
      | (.ok (result, cache'), calls) => ⟨result, cache', calls⟩
      | (.error e, calls) => ⟨trackingErrorResult e, cache, calls⟩

/-- Python iteration over a parsed value (`for x in v`): lists yield elements,
strings yield one-character strings, dicts yield their keys, scalars raise. -/
def pyIterElems : JVal → Except String (List JVal)
  | .arr xs => .ok xs
  | .str s => .ok (s.data.map (fun c => .str (String.mk [c])))
  | .obj kvs => .ok (kvs.map (fun kv => .str kv.1))
  | _ => .error "TypeError: object is not iterable"

/-- The comprehension `[p['point'] for p in ...]`. -/
def pyMapIndexPoint : List JVal → Except String (List JVal)
  | [] => .ok []
  | v :: rest =>
      match v.pyIndex "point" with
      | .error e => .error e
      | .ok p =>
        match pyMapIndexPoint rest with
        | .error e => .error e
        | .ok ps => .ok (p :: ps)

/-- The comprehension `[p.get('importance', 0) for p in ...]`. -/
def pyMapGetImportance : List JVal → Except String (List JVal)
  | [] => .ok []
  | v :: rest =>
      match v.pyGet "importance" (.num 0) with
      | .error e => .error e
      | .ok p =>
        match pyMapGetImportance rest with
        | .error e => .error e
        | .ok ps => .ok (p :: ps)

/-- Python `max(xs)` over values compared numerically; raises `ValueError` on
an empty sequence and `TypeError` on a non-numeric comparison. -/
def pyMaxNums (xs : List JVal) : Except String Rat :=
  match xs with
  | [] => .error "ValueError: max() arg is an empty sequence"
  | x :: rest =>
      match pyNumOf x with
      | .error e => .error e
      | .ok a =>
        match rest with
        | [] => .ok a
        | _ =>
          match pyMaxNums rest with
          | .error e => .error e
          | .ok b => .ok (max a b)

/-- Python slicing `v[:n]` on a parsed value (used as `...[:2]`). -/
def pySliceVal (v : JVal) (n : Nat) : Except String JVal :=
  match v with
  | .arr xs => .ok (.arr (xs.take n))
  | .str s => .ok (.str (pySlice s n))
  | _ => .error "TypeError: object is not subscriptable"

/-- Python `min(x, y)` (returns the first argument on a tie). -/
def pyMin2 (x y : JVal) : Except String JVal :=
  match pyNumOf x with
  | .error e => .error e
  | .ok a =>
    match pyNumOf y with
    | .error e => .error e
    | .ok b => .ok (if b < a then y else x)

/-- Python `len(v)` on a parsed value. -/
def pyLenOf : JVal → Except String Nat
  | .arr xs => .ok xs.length
  | .str s => .ok s.data.length
  | .obj kvs => .ok kvs.length
  | _ => .error "TypeError: object has no len"

/-- The inline degraded result of `generate_ai_summary`'s `except` branch. -/
def summaryErrorResult (e : String) : JVal :=
  .obj [("main_purpose", .str "Summary generation failed"),
        ("key_points", .arr [.str "Unable to generate summary"]),
        ("confidence_score", .num 0), ("error", .str e)]

/-- The `# Combine results` dict of `generate_ai_summary`. -/
def summaryMergeResult (doc_type purpose points domains : JVal) :
    Except String JVal :=
  match doc_type.pyGet "document_type" (.str "Other") with
  | .error e => .error e
  | .ok dt =>
    match purpose.pyGet "main_purpose" (.str "Not specified") with
    | .error e => .error e
    | .ok mp =>
      match points.pyGet "key_points" (.arr []) with
      | .error e => .error e
      | .ok kp =>
        match pyIterElems kp with
        | .error e => .error e
        | .ok kpElems =>
          match pyMapIndexPoint kpElems with
          | .error e => .error e
          | .ok pts =>
            match points.pyGet "key_points"
                (.arr [.obj [("importance", .num 0)]]) with
            | .error e => .error e
            | .ok kp2 =>
              match pyIterElems kp2 with
              | .error e => .error e
              | .ok kp2Elems =>
                match pyMapGetImportance kp2Elems with
                | .error e => .error e
                | .ok imps =>
                  match pyMaxNums imps with
                  | .error e => .error e
                  | .ok mx =>
                    match domains.pyGet "legal_domains" (.arr []) with
                    | .error e => .error e
                    | .ok ld =>
                      match pySliceVal ld 2 with
                      | .error e => .error e
                      | .ok topics =>
                        match doc_type.pyGet "type_confidence" (.num 0) with
                        | .error e => .error e
                        | .ok tc =>
                          match purpose.pyGet "purpose_clarity" (.num 0) with
                          | .error e => .error e
                          | .ok pc =>
                            match pyMin2 tc pc with
                            | .error e => .error e
                            | .ok conf =>
                              .ok (.obj [
                                ("document_type", dt),
                                ("main_purpose", mp),
                                ("key_points", .arr pts),
                                ("importance",
                                 .str (if ratPoint7 < mx then "High"
                                       else "Medium")),
                                ("topics", topics),
                                ("confidence_score", conf)])

/-- Body of the `try` block of `generate_ai_summary`: four independent calls
(type, purpose, key points, legal domains), then the merge. -/
def summaryBody (b : Backend) (cache : Cache) (cache_key : String)
    (document_text : String) : Except String (JVal × Cache) × List CallTag :=
  match b.summaryType (pySlice document_text 500) with
  | .error e => (.error e, [.documentTypeStep])
  | .ok doc_type =>
    match b.summaryPurpose (pySlice document_text 1500) with
    | .error e => (.error e, [.documentTypeStep, .mainPurposeStep])
    | .ok purpose =>
      match b.summaryPoints (pySlice document_text 2000) with
      | .error e => (.error e, [.documentTypeStep, .mainPurposeStep,
                                .keyPointsStep])
      | .ok points =>
        match b.summaryDomains (pySlice document_text 1500) with
        | .error e => (.error e, [.documentTypeStep, .mainPurposeStep,
                                  .keyPointsStep, .legalDomainsStep])
        | .ok domains =>
          match summaryMergeResult doc_type purpose points domains with
          | .error e => (.error e, [.documentTypeStep, .mainPurposeStep,
                                    .keyPointsStep, .legalDomainsStep])
          | .ok summary =>
              (.ok (summary, dictInsert cache cache_key summary),
               [.documentTypeStep, .mainPurposeStep, .keyPointsStep,
                .legalDomainsStep])

/-- `LegalAIAnalyzer.generate_ai_summary`. -/
def generate_ai_summary (md5hex : String → String) (b : Backend)
    (cache : Cache) (document_text : String) : OpOutcome :=
  let cache_key := create_cache_key md5hex document_text "summary"
  match jlookup cache cache_key with
  | some v => ⟨v, cache, []⟩
  | none =>
      match summaryBody b cache cache_key document_text with
      | (.ok (summary, cache'), calls) => ⟨summary, cache', calls⟩
      | (.error e, calls) => ⟨summaryErrorResult e, cache, calls⟩

/-- The inline degraded result of `extract_document_structure`'s `except`
branch. -/
def structureErrorResult (e : String) : JVal :=
  .obj [("sections", .arr []), ("confidence_score", .num 0), ("error", .str e)]

/-- The comprehension over `sections_found` building the normalized section
dicts. -/
def pyMapSection : List JVal → Except String (List JVal)
  | [] => .ok []
  | s :: rest =>
      match s.pyIndex "type" with
      | .error e => .error e
      | .ok t =>
        match s.pyIndex "identifier" with
        | .error e => .error e
        | .ok i =>
          match pyMapSection rest with
          | .error e => .error e
          | .ok ss =>
            .ok (.obj [("type", t), ("number", i),
                       ("heading", .str (pyStr t ++ " " ++ pyStr i)),
                       ("summary", .str "")] :: ss)

/-- `any(s['type'] == 'Annex' for s in ...)`, short-circuiting like Python. -/
def pyAnyTypeAnnex : List JVal → Except String Bool
  | [] => .ok false
  | s :: rest =>
      match s.pyIndex "type" with
      | .error e => .error e
      | .ok t =>
        if jvalEqStr t "Annex" then .ok true else pyAnyTypeAnnex rest

/-- The `# Combine results` dict of `extract_document_structure`.  The 0.8
confidence is hardcoded in the source. -/
def structureMergeResult (sections articles : JVal) : Except String JVal :=
  match sections.pyGet "sections_found" (.arr []) with
  | .error e => .error e
  | .ok sf =>
    match pyIterElems sf with
    | .error e => .error e
    | .ok sfElems =>
      match pyMapSection sfElems with
      | .error e => .error e
      | .ok secs =>
        match articles.pyGet "total_articles" (.num 0) with
        | .error e => .error e
        | .ok ta =>
          match pyGtLit ta 0 with
          | .error e => .error e
          | .ok hasArts =>
            match pyAnyTypeAnnex sfElems with
            | .error e => .error e
            | .ok hasAnnex =>
              match pyLenOf sf with
              | .error e => .error e
              | .ok total =>
                .ok (.obj [
                  ("title", .str "Document Structure Analysis"),
                  ("sections", .arr secs),
                  ("has_articles", .bool hasArts),
                  ("has_annexes", .bool hasAnnex),
                  ("total_sections", .num total),
                  ("confidence_score", .num ratPoint8)])

/-- Body of the `try` block of `extract_document_structure`: section
detection, then article extraction only when `has_structured_format` is
truthy. -/
def structureBody (b : Backend) (cache : Cache) (cache_key : String)
    (document_text : String) : Except String (JVal × Cache) × List CallTag :=
  match b.structureSections (pySlice document_text 2000) with
  | .error e => (.error e, [.sectionDetection])
  | .ok sections =>
    match sections.pyGetOpt "has_structured_format" with
    | .error e => (.error e, [.sectionDetection])
    | .ok hsf =>
      if pyTruthy hsf then
        match b.structureArticles (pySlice document_text 3000) with
        | .error e => (.error e, [.sectionDetection, .articleExtraction])
        | .ok articles =>
          match structureMergeResult sections articles with
          | .error e => (.error e, [.sectionDetection, .articleExtraction])
          | .ok structure0 =>
              (.ok (structure0, dictInsert cache cache_key structure0),
               [.sectionDetection, .articleExtraction])
      else
        match structureMergeResult sections
            (.obj [("articles", .arr []), ("total_articles", .num 0)]) with
        | .error e => (.error e, [.sectionDetection])
        | .ok structure0 =>
            (.ok (structure0, dictInsert cache cache_key structure0),
             [.sectionDetection])

/-- `LegalAIAnalyzer.extract_document_structure`. -/
def extract_document_structure (md5hex : String → String) (b : Backend)
    (cache : Cache) (document_text : String) : OpOutcome :=
  let cache_key := create_cache_key md5hex document_text "structure"
  match jlookup cache cache_key with
  | some v => ⟨v, cache, []⟩
  | none =>
      match structureBody b cache cache_key document_text with
      | (.ok (structure0, cache'), calls) => ⟨structure0, cache', calls⟩
      | (.error e, calls) => ⟨structureErrorResult e, cache, calls⟩

/-- The inline degraded result of `assess_compliance_impact`'s `except`
branch. -/
def complianceErrorResult (e : String) : JVal :=
  .obj [("overall_impact", .str "Error"), ("confidence_score", .num 0),
        ("error", .str e)]

/-- The per-sector loop of `assess_compliance_impact` (the source iterates
`sectors[:3]`; the truncation is applied by the caller below).  For each
sector: relevance check, then — only if relevant — requirement extraction and
complexity assessment, accumulating `sector_impacts`. -/
def complianceLoop (b : Backend) (document_text : String) :
    List String → List (String × JVal) →
    Except String (List (String × JVal)) × List CallTag
  | [], impacts => (.ok impacts, [])
  | sector :: rest, impacts =>
      match b.complianceRelevance sector (pySlice document_text 1500) with
      | .error e => (.error e, [.sectorRelevance sector])
      | .ok relevance =>
        match relevance.pyGetOpt "is_relevant" with
        | .error e => (.error e, [.sectorRelevance sector])
        | .ok ir =>
          if pyTruthy ir then
            match b.complianceRequirements sector (pySlice document_text 2000)
                with
            | .error e => (.error e, [.sectorRelevance sector,
                                      .sectorRequirements sector])
            | .ok requirements =>
              match requirements.pyGet "requirements" (.arr []) with
              | .error e => (.error e, [.sectorRelevance sector,
                                        .sectorRequirements sector])
              | .ok reqs =>
                match pyJoin ", " reqs with
                | .error e => (.error e, [.sectorRelevance sector,
                                          .sectorRequirements sector])
                | .ok reqStr =>
                  match b.complianceComplexity sector reqStr with
                  | .error e => (.error e, [.sectorRelevance sector,
                                            .sectorRequirements sector,
                                            .sectorComplexity sector])
                  | .ok complexity =>
                    match complexity.pyGet "complexity_level" (.str "Medium")
                        with
                    | .error e => (.error e, [.sectorRelevance sector,
                                              .sectorRequirements sector,
                                              .sectorComplexity sector])
                    | .ok lvl =>
                      let entry : JVal := .obj [
                        ("impact_level", lvl),
                        ("specific_requirements", reqs),
                        ("deadlines", .arr []),
                        ("actions_required", .arr [])]
                      match complianceLoop b document_text rest
                          (dictInsert impacts sector entry) with
                      | (res, calls) =>
                          (res, .sectorRelevance sector ::
                                .sectorRequirements sector ::
                                .sectorComplexity sector :: calls)
          else
            match complianceLoop b document_text rest impacts with
            | (res, calls) => (res, .sectorRelevance sector :: calls)

/-- The comprehension `[v.get('impact_level', 'Low') for v in
sector_impacts.values()]`. -/
def pyImpactLevels : List (String × JVal) → Except String (List JVal)
  | [] => .ok []
  | (_, v) :: rest =>
      match v.pyGet "impact_level" (.str "Low") with
      | .error e => .error e
      | .ok lvl =>
        match pyImpactLevels rest with
        | .error e => .error e
        | .ok ls => .ok (lvl :: ls)

/-- Body of the `try` block of `assess_compliance_impact`: the sector loop
over `sectors[:3]`, then the overall-impact aggregation.  The 0.7 confidence
is hardcoded in the source. -/
def complianceBody (b : Backend) (cache : Cache) (cache_key : String)
    (document_text : String) (sectors : List String) :
    Except String (JVal × Cache) × List CallTag :=
  match complianceLoop b document_text (sectors.take 3) [] with
  | (.error e, calls) => (.error e, calls)
  | (.ok sector_impacts, calls) =>
      match pyImpactLevels sector_impacts with
      | .error e => (.error e, calls)
      | .ok impact_levels =>
        let overall_impact :=
          if impact_levels.any (fun v => jvalEqStr v "High") then "High"
          else if impact_levels.any (fun v => jvalEqStr v "Medium") then
            "Medium"
          else "Low"
        let result : JVal := .obj [
          ("overall_impact", .str overall_impact),
          ("sector_impacts", .obj sector_impacts),
          ("cross_sector_requirements", .arr []),
          ("implementation_complexity", .str overall_impact),
          ("confidence_score", .num ratPoint7)]
        (.ok (result, dictInsert cache cache_key result), calls)

/-- `LegalAIAnalyzer.assess_compliance_impact`. -/
def assess_compliance_impact (md5hex : String → String) (b : Backend)
    (cache : Cache) (document_text : String) (sectors : List String) :
    OpOutcome :=
  let cache_key :=
    create_cache_key md5hex
      (pySlice document_text 500 ++ "_" ++ String.intercalate "," sectors)
      "compliance"
  match jlookup cache cache_key with
  | some v => ⟨v, cache, []⟩
  | none =>
      match complianceBody b cache cache_key document_text sectors with
      | (.ok (result, cache'), calls) => ⟨result, cache', calls⟩
      | (.error e, calls) => ⟨complianceErrorResult e, cache, calls⟩

/-- Modelled from the spec wording of the cache-key claim for the query-based
kinds: "the fingerprint obtained by hashing the first 1000 characters of the
input document text", the query "folded into the hashed input before
fingerprinting, with the document-text prefix hashed still being its first
1000 characters".  Used only to compare the claimed derivation against the
code's (`create_cache_key`); the code is the authority. -/
def claimedSearchCacheKey (md5hex : String → String)
    (document_text query : String) : String :=
  "search_" ++ md5hex (pySlice document_text 1000 ++ "_" ++ query)

/-- Field access on a result object, for stating properties of results. -/
def jget (v : JVal) (k : String) : Option JVal :=
  match v with
  | .obj kvs => jlookup kvs k
  | _ => none

/-- A stub backend on which every request raises (the LLM client being
unavailable). -/
def downBackend : Backend where
  comprehensive _ := .error "backend unavailable"
  searchSemantic _ _ := .error "backend unavailable"
  searchRelevance _ _ := .error "backend unavailable"
  searchExcerpt _ _ := .error "backend unavailable"
  trackDetection _ _ := .error "backend unavailable"
  trackRelationship _ _ := .error "backend unavailable"
  trackTemporal _ _ := .error "backend unavailable"
  trackEvolution _ _ := .error "backend unavailable"
  summaryType _ := .error "backend unavailable"
  summaryPurpose _ := .error "backend unavailable"
  summaryPoints _ := .error "backend unavailable"
  summaryDomains _ := .error "backend unavailable"
  structureSections _ := .error "backend unavailable"
  structureArticles _ := .error "backend unavailable"
  complianceRelevance _ _ := .error "backend unavailable"
  complianceRequirements _ _ := .error "backend unavailable"
  complianceComplexity _ _ := .error "backend unavailable"

/-- A deterministic stub backend answering every request with a fixed
well-formed JSON object of the shape its prompt requests.  Its relevance
scoring answers 0.2 (below the 0.3 threshold) while its semantic similarity is
0.9; its regulation detection answers `mentions_regulation: false`. -/
def stubBackend : Backend where
  comprehensive _ := .ok (.obj [
    ("document_metadata", .obj [("confidence_score",
      .num (ratVal 9 10 (by decide) (by norm_num)))]),
    ("overall_confidence", .num (ratVal 9 10 (by decide) (by norm_num)))])
  searchSemantic _ _ := .ok (.obj [
    ("matched_concepts", .arr [.str "data protection"]),
    ("semantic_similarity_score", .num (ratVal 9 10 (by decide) (by norm_num)))])
  searchRelevance _ _ := .ok (.obj [
    ("relevance_score", .num (ratVal 1 5 (by decide) (by norm_num))),
    ("relevance_category", .str "Weak")])
  searchExcerpt _ _ := .ok (.obj [
    ("relevant_excerpts", .arr [.str "a quoted excerpt"]),
    ("excerpt_relevance_scores", .arr [.num (ratVal 4 5 (by decide) (by norm_num))])])
  trackDetection _ _ := .ok (.obj [
    ("mentions_regulation", .bool false),
    ("confidence", .num (ratVal 3 4 (by decide) (by norm_num)))])
  trackRelationship _ _ := .ok (.obj [
    ("relationship_type", .str "Amendment"),
    ("relationship_strength", .num (ratVal 3 5 (by decide) (by norm_num)))])
  trackTemporal _ _ := .ok (.obj [
    ("dates_mentioned", .arr [.str "2024-01-01"]),
    ("deadlines", .arr [.str "2025-06-30"])])
  trackEvolution _ _ := .ok (.obj [
    ("evolution_indicators", .arr [.str "expansion"]),
    ("importance", .str "High")])
  summaryType _ := .ok (.obj [
    ("document_type", .str "Regulation"),
    ("type_confidence", .num (ratVal 4 5 (by decide) (by norm_num)))])
  summaryPurpose _ := .ok (.obj [
    ("main_purpose", .str "Sets data-protection rules"),
    ("purpose_clarity", .num (ratVal 7 10 (by decide) (by norm_num)))])
  summaryPoints _ := .ok (.obj [
    ("key_points", .arr [.obj [("point", .str "first point"),
      ("importance", .num (ratVal 4 5 (by decide) (by norm_num)))]])])
  summaryDomains _ := .ok (.obj [
    ("legal_domains", .arr [.str "Data Protection", .str "Competition Law",
      .str "Tax Law"])])
  structureSections _ := .ok (.obj [
    ("has_structured_format", .bool true),
    ("sections_found", .arr [
      .obj [("type", .str "Article"), ("identifier", .str "1")],
      .obj [("type", .str "Annex"), ("identifier", .str "I")]])])
  structureArticles _ := .ok (.obj [
    ("articles", .arr [.str "Article 1"]), ("total_articles", .num 1)])
  complianceRelevance _ _ := .ok (.obj [
    ("is_relevant", .bool true),
    ("relevance_score", .num (ratVal 4 5 (by decide) (by norm_num)))])
  complianceRequirements _ _ := .ok (.obj [
    ("requirements", .arr [.str "appoint an officer"]),
    ("has_deadlines", .bool true)])
  complianceComplexity _ _ := .ok (.obj [("complexity_level", .str "High")])

/-- `stubBackend` with the regulation-detection step answering that the
regulation is mentioned. -/
def stubBackendMention : Backend :=
  { stubBackend with
    trackDetection := fun _ _ => .ok (.obj [
      ("mentions_regulation", .bool true),
      ("mention_type", .str "direct reference|indirect reference"),
      ("confidence", .num (ratVal 3 4 (by decide) (by norm_num)))]) }

/-- Texts agreeing on their first 1000 characters agree on their first 500
(used for the query-based cache keys, which hash only the 500-character
document prefix). -/
theorem pySlice_500_eq (t1 t2 : String)
    (h : pySlice t1 1000 = pySlice t2 1000) :
    pySlice t1 500 = pySlice t2 500 := by
  have hd : t1.data.take 1000 = t2.data.take 1000 := congrArg String.data h
  unfold pySlice
  congr 1
  calc t1.data.take 500 = (t1.data.take 1000).take 500 := by
        rw [List.take_take]; norm_num
    _ = (t2.data.take 1000).take 500 := by rw [hd]
    _ = t2.data.take 500 := by rw [List.take_take]; norm_num

/-- A key present after a Python dict assignment was either the assigned key
or already present. -/
theorem dictInsert_keys (k' : String) :
    ∀ (xs : List (String × JVal)) (k : String) (v : JVal),
    k' ∈ (dictInsert xs k v).map Prod.fst → k' = k ∨ k' ∈ xs.map Prod.fst := by
  intro xs
  induction xs with
  | nil => intro k v h; simp [dictInsert] at h; exact Or.inl h
  | cons kv rest ih =>
      intro k v h
      unfold dictInsert at h
      by_cases hk : kv.1 = k
      · rw [if_pos hk] at h
        simp at h
        rcases h with h | h
        · exact Or.inr (by simp [h])
        · exact Or.inr (by simp [h])
      · rw [if_neg hk] at h
        simp at h
        rcases h with h | h
        · exact Or.inr (by simp [h])
        · rcases ih k v (by simpa using h) with h' | h'
          · exact Or.inl h'
          · exact Or.inr (by simp; right; simpa using h')

/-- Every backend call made by the compliance sector loop belongs to one of
the sectors in its input list. -/
theorem complianceLoop_calls_sectors (b : Backend) (text : String) :
    ∀ (secs : List String) (impacts : List (String × JVal)) (t : CallTag),
    t ∈ (complianceLoop b text secs impacts).2 →
    ∃ s, s ∈ secs ∧ (t = .sectorRelevance s ∨ t = .sectorRequirements s ∨
      t = .sectorComplexity s) := by
  intro secs
  induction secs with
  | nil => intro impacts t ht; simp [complianceLoop] at ht
  | cons sector rest ih =>
      intro impacts t ht
      unfold complianceLoop at ht
      cases hrel : b.complianceRelevance sector (pySlice text 1500) with
      | error e =>
          rw [hrel] at ht; simp at ht
          exact ⟨sector, by simp, by simp [ht]⟩
      | ok relevance =>
        rw [hrel] at ht
        simp only [] at ht
        cases hir : relevance.pyGetOpt "is_relevant" with
        | error e =>
            rw [hir] at ht; simp at ht
            exact ⟨sector, by simp, by simp [ht]⟩
        | ok ir =>
          rw [hir] at ht
          simp only [] at ht
          cases htr : pyTruthy ir with
          | false =>
            rw [htr] at ht
            simp at ht
            rcases ht with ht | ht
            · exact ⟨sector, by simp, by simp [ht]⟩
            · obtain ⟨s, hs, ho⟩ := ih _ t ht
              exact ⟨s, by simp [hs], ho⟩
          | true =>
            rw [htr] at ht
            simp only [if_true] at ht
            cases hreq : b.complianceRequirements sector (pySlice text 2000)
                with
            | error e =>
                rw [hreq] at ht; simp at ht
                rcases ht with ht | ht <;>
                  exact ⟨sector, by simp, by simp [ht]⟩
            | ok requirements =>
              rw [hreq] at ht
              simp only [] at ht
              cases hreqs : requirements.pyGet "requirements" (.arr []) with
              | error e =>
                  rw [hreqs] at ht; simp at ht
                  rcases ht with ht | ht <;>
                    exact ⟨sector, by simp, by simp [ht]⟩
              | ok reqs =>
                rw [hreqs] at ht
                simp only [] at ht
                cases hjoin : pyJoin ", " reqs with
                | error e =>
                    rw [hjoin] at ht; simp at ht
                    rcases ht with ht | ht <;>
                      exact ⟨sector, by simp, by simp [ht]⟩
                | ok reqStr =>
                  rw [hjoin] at ht
                  simp only [] at ht
                  cases hcx : b.complianceComplexity sector reqStr with
                  | error e =>
                      rw [hcx] at ht; simp at ht
                      rcases ht with ht | ht | ht <;>
                        exact ⟨sector, by simp, by simp [ht]⟩
                  | ok complexity =>
                    rw [hcx] at ht
                    simp only [] at ht
                    cases hlvl : complexity.pyGet "complexity_level"
                        (.str "Medium") with
                    | error e =>
                        rw [hlvl] at ht; simp at ht
                        rcases ht with ht | ht | ht <;>
                          exact ⟨sector, by simp, by simp [ht]⟩
                    | ok lvl =>
                      rw [hlvl] at ht
                      simp at ht
                      rcases ht with ht | ht | ht | ht
                      · exact ⟨sector, by simp, by simp [ht]⟩
                      · exact ⟨sector, by simp, by simp [ht]⟩
                      · exact ⟨sector, by simp, by simp [ht]⟩
                      · obtain ⟨s, hs, ho⟩ := ih _ t ht
                        exact ⟨s, by simp [hs], ho⟩

/-- Every key of the sector-impacts dict built by the compliance loop is
either a key of the starting dict or one of the processed sectors. -/
theorem complianceLoop_impacts_keys (b : Backend) (text : String) :
    ∀ (secs : List String) (impacts impacts' : List (String × JVal))
      (calls : List CallTag),
    complianceLoop b text secs impacts = (.ok impacts', calls) →
    ∀ k, k ∈ impacts'.map Prod.fst → k ∈ impacts.map Prod.fst ∨ k ∈ secs := by
  intro secs
  induction secs with
  | nil =>
      intro impacts impacts' calls h k hk
      simp [complianceLoop] at h
      rw [← h.1] at hk
      exact Or.inl hk
  | cons sector rest ih =>
      intro impacts impacts' calls h k hk
      unfold complianceLoop at h
      cases hrel : b.complianceRelevance sector (pySlice text 1500) with
      | error e => rw [hrel] at h; simp at h
      | ok relevance =>
        rw [hrel] at h
        simp only [] at h
        cases hir : relevance.pyGetOpt "is_relevant" with
        | error e => rw [hir] at h; simp at h
        | ok ir =>
          rw [hir] at h
          simp only [] at h
          cases htr : pyTruthy ir with
          | false =>
            rw [htr] at h
            simp only [Bool.false_eq_true, if_false] at h
            cases hrec : complianceLoop b text rest impacts with
            | mk res calls2 =>
              rw [hrec] at h
              simp at h
              rcases ih impacts impacts' calls2 (by rw [hrec, h.1]) k hk
                  with h' | h'
              · exact Or.inl h'
              · exact Or.inr (by simp [h'])
          | true =>
            rw [htr] at h
            simp only [if_true] at h
            cases hreq : b.complianceRequirements sector (pySlice text 2000)
                with
            | error e => rw [hreq] at h; simp at h
            | ok requirements =>
              rw [hreq] at h
              simp only [] at h
              cases hreqs : requirements.pyGet "requirements" (.arr []) with
              | error e => rw [hreqs] at h; simp at h
              | ok reqs =>
                rw [hreqs] at h
                simp only [] at h
                cases hjoin : pyJoin ", " reqs with
                | error e => rw [hjoin] at h; simp at h
                | ok reqStr =>
                  rw [hjoin] at h
                  simp only [] at h
                  cases hcx : b.complianceComplexity sector reqStr with
                  | error e => rw [hcx] at h; simp at h
                  | ok complexity =>
                    rw [hcx] at h
                    simp only [] at h
                    cases hlvl : complexity.pyGet "complexity_level"
                        (.str "Medium") with
                    | error e => rw [hlvl] at h; simp at h
                    | ok lvl =>
                      rw [hlvl] at h
                      simp only [] at h
                      cases hrec : complianceLoop b text rest
                          (dictInsert impacts sector (.obj [
                            ("impact_level", lvl),
                            ("specific_requirements", reqs),
                            ("deadlines", .arr []),
                            ("actions_required", .arr [])])) with
                      | mk res calls2 =>
                        rw [hrec] at h
                        simp at h
                        rcases ih _ impacts' calls2 (by rw [hrec, h.1]) k hk
                            with h' | h'
                        · rcases dictInsert_keys k impacts sector _ h'
                              with h'' | h''
                          · exact Or.inr (by simp [h''])
                          · exact Or.inl h''
                        · exact Or.inr (by simp [h'])

/-- C1: for every document text that is empty or whose trimmed form is
shorter than 50 characters, `comprehensive_document_analysis` returns exactly
the fallback result built by `create_fallback_analysis` with the message
"Document text too short or empty", leaves the cache unchanged, makes no
backend call, and the returned result carries `overall_confidence` 0.0 and
the message embedded in its `error` and executive-summary fields. -/
theorem C1_short_or_empty_returns_fallback (md5hex : String → String)
    (b : Backend) (cache : Cache) (document_text : String)
    (h : document_text = "" ∨ pyLen (pyStrip document_text) < 50) :
    comprehensive_document_analysis md5hex b cache document_text =
      ⟨create_fallback_analysis "Document text too short or empty", cache,
       []⟩ ∧
    jget (comprehensive_document_analysis md5hex b cache document_text).result
      "overall_confidence" = some (.num 0) ∧
    jget (comprehensive_document_analysis md5hex b cache document_text).result
      "error" = some (.str "Document text too short or empty") := by
  unfold comprehensive_document_analysis
  rw [if_pos h]
  exact ⟨rfl, rfl, rfl⟩

/-- C1 witness: the 2-character text "hi" triggers the fallback with no
backend call even on a backend on which every request would fail. -/
theorem C1_witness :
    ("hi" = "" ∨ pyLen (pyStrip "hi") < 50) ∧
    (comprehensive_document_analysis (fun _ => "h") downBackend [] "hi" =
      ⟨create_fallback_analysis "Document text too short or empty", [], []⟩ ∧
    jget (comprehensive_document_analysis (fun _ => "h") downBackend []
      "hi").result "overall_confidence" = some (.num 0) ∧
    jget (comprehensive_document_analysis (fun _ => "h") downBackend []
      "hi").result "error" =
      some (.str "Document text too short or empty")) :=
  ⟨Or.inr (by decide),
   C1_short_or_empty_returns_fallback (fun _ => "h") downBackend [] "hi"
     (Or.inr (by decide))⟩

/-- C2 counterexample: with a deterministic backend whose detection step
answers `mentions_regulation: false`, the first `ai_regulatory_tracking` call
completes (one detection call, no `error` field) but stores nothing in the
cache, so a second identical call is NOT served from the cache: it contacts
the backend again, and if the backend has become unavailable it returns a
different (error) result — refuting the claim as stated for the six
operations. -/
theorem C2_counterexample :
    (ai_regulatory_tracking (fun _ => "h") stubBackend [] "doc" "GDPR").calls =
      [.regulationDetection] ∧
    jget (ai_regulatory_tracking (fun _ => "h") stubBackend [] "doc"
      "GDPR").result "error" = none ∧
    (ai_regulatory_tracking (fun _ => "h") downBackend
      (ai_regulatory_tracking (fun _ => "h") stubBackend [] "doc" "GDPR").cache
      "doc" "GDPR").calls ≠ [] ∧
    jget (ai_regulatory_tracking (fun _ => "h") downBackend
      (ai_regulatory_tracking (fun _ => "h") stubBackend [] "doc" "GDPR").cache
      "doc" "GDPR").result "error" = some (.str "backend unavailable") ∧
    (ai_regulatory_tracking (fun _ => "h") downBackend
      (ai_regulatory_tracking (fun _ => "h") stubBackend [] "doc" "GDPR").cache
      "doc" "GDPR").result ≠
    (ai_regulatory_tracking (fun _ => "h") stubBackend [] "doc"
      "GDPR").result := by
  refine ⟨rfl, rfl, by decide, rfl, ?_⟩
  intro h
  exact absurd (congrArg (fun v => (jget v "error").isSome) h) (by decide)

/-- C2 (amended): for each of the six operations, whenever the first call has
left its own result stored in the cache under the operation's key — which
holds after every first call that completes its full pipeline successfully,
but not after `ai_regulatory_tracking`'s early "not related" return nor after
an error return — a second call with identical arguments returns that result
bit-identically from the cache, with the cache unchanged and no backend call,
even if the backend has been replaced by an arbitrary (e.g. unavailable)
one. -/
theorem C2_second_call_served_from_cache (md5hex : String → String)
    (b b' : Backend) (cache : Cache) :
    (∀ document_text,
      jlookup (comprehensive_document_analysis md5hex b cache
          document_text).cache
        (create_cache_key md5hex document_text "comprehensive") =
        some (comprehensive_document_analysis md5hex b cache
          document_text).result →
      comprehensive_document_analysis md5hex b'
        (comprehensive_document_analysis md5hex b cache document_text).cache
        document_text =
        ⟨(comprehensive_document_analysis md5hex b cache document_text).result,
         (comprehensive_document_analysis md5hex b cache document_text).cache,
         []⟩) ∧
    (∀ document_text search_query,
      jlookup (ai_powered_search md5hex b cache document_text
          search_query).cache
        (create_cache_key md5hex
          (pySlice document_text 500 ++ "_" ++ search_query) "search") =
        some (ai_powered_search md5hex b cache document_text
          search_query).result →
      ai_powered_search md5hex b'
        (ai_powered_search md5hex b cache document_text search_query).cache
        document_text search_query =
        ⟨(ai_powered_search md5hex b cache document_text search_query).result,
         (ai_powered_search md5hex b cache document_text search_query).cache,
         []⟩) ∧
    (∀ document_text regulation_topic,
      jlookup (ai_regulatory_tracking md5hex b cache document_text
          regulation_topic).cache
        (create_cache_key md5hex
          (pySlice document_text 500 ++ "_" ++ regulation_topic) "tracking") =
        some (ai_regulatory_tracking md5hex b cache document_text
          regulation_topic).result →
      ai_regulatory_tracking md5hex b'
        (ai_regulatory_tracking md5hex b cache document_text
          regulation_topic).cache document_text regulation_topic =
        ⟨(ai_regulatory_tracking md5hex b cache document_text
            regulation_topic).result,
         (ai_regulatory_tracking md5hex b cache document_text
            regulation_topic).cache, []⟩) ∧
    (∀ document_text,
      jlookup (generate_ai_summary md5hex b cache document_text).cache
        (create_cache_key md5hex document_text "summary") =
        some (generate_ai_summary md5hex b cache document_text).result →
      generate_ai_summary md5hex b'
        (generate_ai_summary md5hex b cache document_text).cache
        document_text =
        ⟨(generate_ai_summary md5hex b cache document_text).result,
         (generate_ai_summary md5hex b cache document_text).cache, []⟩) ∧
    (∀ document_text,
      jlookup (extract_document_structure md5hex b cache document_text).cache
        (create_cache_key md5hex document_text "structure") =
        some (extract_document_structure md5hex b cache document_text).result →
      extract_document_structure md5hex b'
        (extract_document_structure md5hex b cache document_text).cache
        document_text =
        ⟨(extract_document_structure md5hex b cache document_text).result,
         (extract_document_structure md5hex b cache document_text).cache,
         []⟩) ∧
    (∀ document_text sectors,
      jlookup (assess_compliance_impact md5hex b cache document_text
          sectors).cache
        (create_cache_key md5hex
          (pySlice document_text 500 ++ "_" ++
            String.intercalate "," sectors) "compliance") =
        some (assess_compliance_impact md5hex b cache document_text
          sectors).result →
      assess_compliance_impact md5hex b'
        (assess_compliance_impact md5hex b cache document_text sectors).cache
        document_text sectors =
        ⟨(assess_compliance_impact md5hex b cache document_text
            sectors).result,
         (assess_compliance_impact md5hex b cache document_text
            sectors).cache, []⟩) := by
  refine ⟨?_, ?_, ?_, ?_, ?_, ?_⟩
  · intro document_text h
    by_cases hg : document_text = "" ∨ pyLen (pyStrip document_text) < 50
    · have ho1 : comprehensive_document_analysis md5hex b cache
          document_text =
          ⟨create_fallback_analysis "Document text too short or empty", cache,
           []⟩ := by
        unfold comprehensive_document_analysis
        rw [if_pos hg]
      rw [ho1]
      unfold comprehensive_document_analysis
      rw [if_pos hg]
    · set o1 := comprehensive_document_analysis md5hex b cache document_text
      unfold comprehensive_document_analysis
      rw [if_neg hg]
      simp only [h]
  · intro document_text search_query h
    set o1 := ai_powered_search md5hex b cache document_text search_query
    unfold ai_powered_search
    simp only [h]
  · intro document_text regulation_topic h
    set o1 := ai_regulatory_tracking md5hex b cache document_text
      regulation_topic
    unfold ai_regulatory_tracking
    simp only [h]
  · intro document_text h
    set o1 := generate_ai_summary md5hex b cache document_text
    unfold generate_ai_summary
    simp only [h]
  · intro document_text h
    set o1 := extract_document_structure md5hex b cache document_text
    unfold extract_document_structure
    simp only [h]
  · intro document_text sectors h
    set o1 := assess_compliance_impact md5hex b cache document_text sectors
    unfold assess_compliance_impact
    simp only [h]

/-- C2 witness: each of the six operations, run once against the fixed stub
backend (the full-pipeline mention-detecting stub for tracking), leaves its
result cached, and the second call returns it unchanged with no backend call
even though the backend has become unavailable. -/
theorem C2_witness :
    (jlookup (comprehensive_document_analysis (fun _ => "h") stubBackend []
        (String.mk (List.replicate 60 'x'))).cache
      (create_cache_key (fun _ => "h") (String.mk (List.replicate 60 'x'))
        "comprehensive") =
      some (comprehensive_document_analysis (fun _ => "h") stubBackend []
        (String.mk (List.replicate 60 'x'))).result ∧
     comprehensive_document_analysis (fun _ => "h") downBackend
      (comprehensive_document_analysis (fun _ => "h") stubBackend []
        (String.mk (List.replicate 60 'x'))).cache
      (String.mk (List.replicate 60 'x')) =
      ⟨(comprehensive_document_analysis (fun _ => "h") stubBackend []
          (String.mk (List.replicate 60 'x'))).result,
       (comprehensive_document_analysis (fun _ => "h") stubBackend []
          (String.mk (List.replicate 60 'x'))).cache, []⟩) ∧
    (jlookup (ai_powered_search (fun _ => "h") stubBackend [] "doc"
        "q").cache
      (create_cache_key (fun _ => "h") (pySlice "doc" 500 ++ "_" ++ "q")
        "search") =
      some (ai_powered_search (fun _ => "h") stubBackend [] "doc"
        "q").result ∧
     ai_powered_search (fun _ => "h") downBackend
      (ai_powered_search (fun _ => "h") stubBackend [] "doc" "q").cache
      "doc" "q" =
      ⟨(ai_powered_search (fun _ => "h") stubBackend [] "doc" "q").result,
       (ai_powered_search (fun _ => "h") stubBackend [] "doc" "q").cache,
       []⟩) ∧
    (jlookup (ai_regulatory_tracking (fun _ => "h") stubBackendMention []
        "doc" "GDPR").cache
      (create_cache_key (fun _ => "h") (pySlice "doc" 500 ++ "_" ++ "GDPR")
        "tracking") =
      some (ai_regulatory_tracking (fun _ => "h") stubBackendMention []
        "doc" "GDPR").result ∧
     ai_regulatory_tracking (fun _ => "h") downBackend
      (ai_regulatory_tracking (fun _ => "h") stubBackendMention [] "doc"
        "GDPR").cache "doc" "GDPR" =
      ⟨(ai_regulatory_tracking (fun _ => "h") stubBackendMention [] "doc"
          "GDPR").result,
       (ai_regulatory_tracking (fun _ => "h") stubBackendMention [] "doc"
          "GDPR").cache, []⟩) ∧
    (jlookup (generate_ai_summary (fun _ => "h") stubBackend [] "doc").cache
      (create_cache_key (fun _ => "h") "doc" "summary") =
      some (generate_ai_summary (fun _ => "h") stubBackend [] "doc").result ∧
     generate_ai_summary (fun _ => "h") downBackend
      (generate_ai_summary (fun _ => "h") stubBackend [] "doc").cache "doc" =
      ⟨(generate_ai_summary (fun _ => "h") stubBackend [] "doc").result,
       (generate_ai_summary (fun _ => "h") stubBackend [] "doc").cache,
       []⟩) ∧
    (jlookup (extract_document_structure (fun _ => "h") stubBackend []
        "doc").cache
      (create_cache_key (fun _ => "h") "doc" "structure") =
      some (extract_document_structure (fun _ => "h") stubBackend []
        "doc").result ∧
     extract_document_structure (fun _ => "h") downBackend
      (extract_document_structure (fun _ => "h") stubBackend [] "doc").cache
      "doc" =
      ⟨(extract_document_structure (fun _ => "h") stubBackend []
          "doc").result,
       (extract_document_structure (fun _ => "h") stubBackend []
          "doc").cache, []⟩) ∧
    (jlookup (assess_compliance_impact (fun _ => "h") stubBackend [] "doc"
        ["finance"]).cache
      (create_cache_key (fun _ => "h")
        (pySlice "doc" 500 ++ "_" ++ String.intercalate "," ["finance"])
        "compliance") =
      some (assess_compliance_impact (fun _ => "h") stubBackend [] "doc"
        ["finance"]).result ∧
     assess_compliance_impact (fun _ => "h") downBackend
      (assess_compliance_impact (fun _ => "h") stubBackend [] "doc"
        ["finance"]).cache "doc" ["finance"] =
      ⟨(assess_compliance_impact (fun _ => "h") stubBackend [] "doc"
          ["finance"]).result,
       (assess_compliance_impact (fun _ => "h") stubBackend [] "doc"
          ["finance"]).cache, []⟩) :=
  ⟨⟨rfl, (C2_second_call_served_from_cache (fun _ => "h") stubBackend
      downBackend []).1 (String.mk (List.replicate 60 'x')) rfl⟩,
   ⟨rfl, (C2_second_call_served_from_cache (fun _ => "h") stubBackend
      downBackend []).2.1 "doc" "q" rfl⟩,
   ⟨rfl, (C2_second_call_served_from_cache (fun _ => "h") stubBackendMention
      downBackend []).2.2.1 "doc" "GDPR" rfl⟩,
   ⟨rfl, (C2_second_call_served_from_cache (fun _ => "h") stubBackend
      downBackend []).2.2.2.1 "doc" rfl⟩,
   ⟨rfl, (C2_second_call_served_from_cache (fun _ => "h") stubBackend
      downBackend []).2.2.2.2.1 "doc" rfl⟩,
   ⟨rfl, (C2_second_call_served_from_cache (fun _ => "h") stubBackend
      downBackend []).2.2.2.2.2 "doc" ["finance"] rfl⟩⟩

set_option maxRecDepth 40000 in
/-- C3 counterexample: two texts identical in their first 1000 characters
(1000 spaces) but differing afterward (50 vs 49 trailing letters).  The first
call completes and caches its result, yet the second call is NOT answered
from the cache with the first call's result: the second text fails the
50-trimmed-character guard of `comprehensive_document_analysis`, which runs
before the cache lookup, so the second call returns the short-text fallback
instead of the cached result. -/
theorem C3_counterexample :
    pySlice (String.mk (List.replicate 1000 ' ' ++ List.replicate 50 'a'))
        1000 =
      pySlice (String.mk (List.replicate 1000 ' ' ++ List.replicate 49 'a'))
        1000 ∧
    String.mk (List.replicate 1000 ' ' ++ List.replicate 50 'a') ≠
      String.mk (List.replicate 1000 ' ' ++ List.replicate 49 'a') ∧
    jlookup (comprehensive_document_analysis (fun _ => "h") stubBackend []
        (String.mk (List.replicate 1000 ' ' ++ List.replicate 50 'a'))).cache
      (create_cache_key (fun _ => "h")
        (String.mk (List.replicate 1000 ' ' ++ List.replicate 50 'a'))
        "comprehensive") =
      some (comprehensive_document_analysis (fun _ => "h") stubBackend []
        (String.mk (List.replicate 1000 ' ' ++
          List.replicate 50 'a'))).result ∧
    jget (comprehensive_document_analysis (fun _ => "h") downBackend
        (comprehensive_document_analysis (fun _ => "h") stubBackend []
          (String.mk (List.replicate 1000 ' ' ++
            List.replicate 50 'a'))).cache
        (String.mk (List.replicate 1000 ' ' ++
          List.replicate 49 'a'))).result "error" =
      some (.str "Document text too short or empty") ∧
    (comprehensive_document_analysis (fun _ => "h") downBackend
        (comprehensive_document_analysis (fun _ => "h") stubBackend []
          (String.mk (List.replicate 1000 ' ' ++
            List.replicate 50 'a'))).cache
        (String.mk (List.replicate 1000 ' ' ++
          List.replicate 49 'a'))).result ≠
      (comprehensive_document_analysis (fun _ => "h") stubBackend []
        (String.mk (List.replicate 1000 ' ' ++
          List.replicate 50 'a'))).result := by
  refine ⟨by decide, by decide, rfl, rfl, ?_⟩
  intro h
  exact absurd (congrArg (fun v => (jget v "error").isSome) h) (by decide)

/-- C3 (amended): two document texts identical in their first 1000 characters
derive the same cache key for every operation; and whenever the first call
has left its result stored under that key — which every fully completed
successful first call does — a call with the second text and otherwise
identical arguments is answered from the cache with the first call's result
and no backend call, provided (for `comprehensive_document_analysis`) the
second text also passes the 50-trimmed-character guard that runs before the
cache lookup. -/
theorem C3_prefix_collision_cache_hit (md5hex : String → String)
    (b b' : Backend) (cache : Cache) (t1 t2 : String)
    (hpre : pySlice t1 1000 = pySlice t2 1000) :
    (create_cache_key md5hex t1 "comprehensive" =
      create_cache_key md5hex t2 "comprehensive") ∧
    (create_cache_key md5hex t1 "summary" =
      create_cache_key md5hex t2 "summary") ∧
    (create_cache_key md5hex t1 "structure" =
      create_cache_key md5hex t2 "structure") ∧
    (∀ q, create_cache_key md5hex (pySlice t1 500 ++ "_" ++ q) "search" =
      create_cache_key md5hex (pySlice t2 500 ++ "_" ++ q) "search") ∧
    (∀ topic, create_cache_key md5hex (pySlice t1 500 ++ "_" ++ topic)
        "tracking" =
      create_cache_key md5hex (pySlice t2 500 ++ "_" ++ topic) "tracking") ∧
    (∀ sectors : List String, create_cache_key md5hex
        (pySlice t1 500 ++ "_" ++ String.intercalate "," sectors)
        "compliance" =
      create_cache_key md5hex
        (pySlice t2 500 ++ "_" ++ String.intercalate "," sectors)
        "compliance") ∧
    (¬(t2 = "" ∨ pyLen (pyStrip t2) < 50) →
      jlookup (comprehensive_document_analysis md5hex b cache t1).cache
        (create_cache_key md5hex t1 "comprehensive") =
        some (comprehensive_document_analysis md5hex b cache t1).result →
      comprehensive_document_analysis md5hex b'
        (comprehensive_document_analysis md5hex b cache t1).cache t2 =
        ⟨(comprehensive_document_analysis md5hex b cache t1).result,
         (comprehensive_document_analysis md5hex b cache t1).cache, []⟩) ∧
    (∀ q, jlookup (ai_powered_search md5hex b cache t1 q).cache
        (create_cache_key md5hex (pySlice t1 500 ++ "_" ++ q) "search") =
        some (ai_powered_search md5hex b cache t1 q).result →
      ai_powered_search md5hex b' (ai_powered_search md5hex b cache t1 q).cache
        t2 q =
        ⟨(ai_powered_search md5hex b cache t1 q).result,
         (ai_powered_search md5hex b cache t1 q).cache, []⟩) ∧
    (∀ topic, jlookup (ai_regulatory_tracking md5hex b cache t1 topic).cache
        (create_cache_key md5hex (pySlice t1 500 ++ "_" ++ topic)
          "tracking") =
        some (ai_regulatory_tracking md5hex b cache t1 topic).result →
      ai_regulatory_tracking md5hex b'
        (ai_regulatory_tracking md5hex b cache t1 topic).cache t2 topic =
        ⟨(ai_regulatory_tracking md5hex b cache t1 topic).result,
         (ai_regulatory_tracking md5hex b cache t1 topic).cache, []⟩) ∧
    (jlookup (generate_ai_summary md5hex b cache t1).cache
        (create_cache_key md5hex t1 "summary") =
        some (generate_ai_summary md5hex b cache t1).result →
      generate_ai_summary md5hex b'
        (generate_ai_summary md5hex b cache t1).cache t2 =
        ⟨(generate_ai_summary md5hex b cache t1).result,
         (generate_ai_summary md5hex b cache t1).cache, []⟩) ∧
    (jlookup (extract_document_structure md5hex b cache t1).cache
        (create_cache_key md5hex t1 "structure") =
        some (extract_document_structure md5hex b cache t1).result →
      extract_document_structure md5hex b'
        (extract_document_structure md5hex b cache t1).cache t2 =
        ⟨(extract_document_structure md5hex b cache t1).result,
         (extract_document_structure md5hex b cache t1).cache, []⟩) ∧
    (∀ sectors, jlookup (assess_compliance_impact md5hex b cache t1
          sectors).cache
        (create_cache_key md5hex
          (pySlice t1 500 ++ "_" ++ String.intercalate "," sectors)
          "compliance") =
        some (assess_compliance_impact md5hex b cache t1 sectors).result →
      assess_compliance_impact md5hex b'
        (assess_compliance_impact md5hex b cache t1 sectors).cache t2
        sectors =
        ⟨(assess_compliance_impact md5hex b cache t1 sectors).result,
         (assess_compliance_impact md5hex b cache t1 sectors).cache, []⟩) := by
  have h500 : pySlice t1 500 = pySlice t2 500 := pySlice_500_eq t1 t2 hpre
  have hkc : create_cache_key md5hex t1 "comprehensive" =
      create_cache_key md5hex t2 "comprehensive" := by
    unfold create_cache_key; rw [hpre]
  have hks : create_cache_key md5hex t1 "summary" =
      create_cache_key md5hex t2 "summary" := by
    unfold create_cache_key; rw [hpre]
  have hkt : create_cache_key md5hex t1 "structure" =
      create_cache_key md5hex t2 "structure" := by
    unfold create_cache_key; rw [hpre]
  refine ⟨hkc, hks, hkt, ?_, ?_, ?_, ?_, ?_, ?_, ?_, ?_, ?_⟩
  · intro q; rw [h500]
  · intro topic; rw [h500]
  · intro sectors; rw [h500]
  · intro hg2 h
    set o1 := comprehensive_document_analysis md5hex b cache t1
    unfold comprehensive_document_analysis
    rw [if_neg hg2]
    simp only [← hkc, h]
  · intro q h
    set o1 := ai_powered_search md5hex b cache t1 q
    unfold ai_powered_search
    simp only [← h500, h]
  · intro topic h
    set o1 := ai_regulatory_tracking md5hex b cache t1 topic
    unfold ai_regulatory_tracking
    simp only [← h500, h]
  · intro h
    set o1 := generate_ai_summary md5hex b cache t1
    unfold generate_ai_summary
    simp only [← hks, h]
  · intro h
    set o1 := extract_document_structure md5hex b cache t1
    unfold extract_document_structure
    simp only [← hkt, h]
  · intro sectors h
    set o1 := assess_compliance_impact md5hex b cache t1 sectors
    unfold assess_compliance_impact
    simp only [← h500, h]

set_option maxRecDepth 40000 in
/-- C3 witness: two 1001+-character texts sharing their first 1000 characters
but differing afterward; after each operation's first call against the stub
backend, the call with the second text is served the first call's result from
the cache with no backend call. -/
theorem C3_witness :
    pySlice (String.mk (List.replicate 1001 'a')) 1000 = pySlice (String.mk (List.replicate 1001 'a' ++ ['z'])) 1000 ∧
    ¬((String.mk (List.replicate 1001 'a' ++ ['z'])) = "" ∨ pyLen (pyStrip (String.mk (List.replicate 1001 'a' ++ ['z']))) < 50) ∧
    (jlookup (comprehensive_document_analysis (fun _ => "h") stubBackend [] (String.mk (List.replicate 1001 'a'))).cache (create_cache_key (fun _ => "h") (String.mk (List.replicate 1001 'a')) "comprehensive") = some (comprehensive_document_analysis (fun _ => "h") stubBackend [] (String.mk (List.replicate 1001 'a'))).result ∧
     comprehensive_document_analysis (fun _ => "h") downBackend (comprehensive_document_analysis (fun _ => "h") stubBackend [] (String.mk (List.replicate 1001 'a'))).cache (String.mk (List.replicate 1001 'a' ++ ['z'])) =
      ⟨(comprehensive_document_analysis (fun _ => "h") stubBackend [] (String.mk (List.replicate 1001 'a'))).result, (comprehensive_document_analysis (fun _ => "h") stubBackend [] (String.mk (List.replicate 1001 'a'))).cache, []⟩) ∧
    (jlookup (ai_powered_search (fun _ => "h") stubBackend [] (String.mk (List.replicate 1001 'a')) "q").cache (create_cache_key (fun _ => "h") (pySlice (String.mk (List.replicate 1001 'a')) 500 ++ "_" ++ "q") "search") = some (ai_powered_search (fun _ => "h") stubBackend [] (String.mk (List.replicate 1001 'a')) "q").result ∧
     ai_powered_search (fun _ => "h") downBackend (ai_powered_search (fun _ => "h") stubBackend [] (String.mk (List.replicate 1001 'a')) "q").cache (String.mk (List.replicate 1001 'a' ++ ['z'])) "q" =
      ⟨(ai_powered_search (fun _ => "h") stubBackend [] (String.mk (List.replicate 1001 'a')) "q").result, (ai_powered_search (fun _ => "h") stubBackend [] (String.mk (List.replicate 1001 'a')) "q").cache, []⟩) ∧
    (jlookup (ai_regulatory_tracking (fun _ => "h") stubBackendMention [] (String.mk (List.replicate 1001 'a')) "GDPR").cache (create_cache_key (fun _ => "h") (pySlice (String.mk (List.replicate 1001 'a')) 500 ++ "_" ++ "GDPR") "tracking") = some (ai_regulatory_tracking (fun _ => "h") stubBackendMention [] (String.mk (List.replicate 1001 'a')) "GDPR").result ∧
     ai_regulatory_tracking (fun _ => "h") downBackend (ai_regulatory_tracking (fun _ => "h") stubBackendMention [] (String.mk (List.replicate 1001 'a')) "GDPR").cache (String.mk (List.replicate 1001 'a' ++ ['z'])) "GDPR" =
      ⟨(ai_regulatory_tracking (fun _ => "h") stubBackendMention [] (String.mk (List.replicate 1001 'a')) "GDPR").result, (ai_regulatory_tracking (fun _ => "h") stubBackendMention [] (String.mk (List.replicate 1001 'a')) "GDPR").cache, []⟩) ∧
    (jlookup (generate_ai_summary (fun _ => "h") stubBackend [] (String.mk (List.replicate 1001 'a'))).cache (create_cache_key (fun _ => "h") (String.mk (List.replicate 1001 'a')) "summary") = some (generate_ai_summary (fun _ => "h") stubBackend [] (String.mk (List.replicate 1001 'a'))).result ∧
     generate_ai_summary (fun _ => "h") downBackend (generate_ai_summary (fun _ => "h") stubBackend [] (String.mk (List.replicate 1001 'a'))).cache (String.mk (List.replicate 1001 'a' ++ ['z'])) =
      ⟨(generate_ai_summary (fun _ => "h") stubBackend [] (String.mk (List.replicate 1001 'a'))).result, (generate_ai_summary (fun _ => "h") stubBackend [] (String.mk (List.replicate 1001 'a'))).cache, []⟩) ∧
    (jlookup (extract_document_structure (fun _ => "h") stubBackend [] (String.mk (List.replicate 1001 'a'))).cache (create_cache_key (fun _ => "h") (String.mk (List.replicate 1001 'a')) "structure") = some (extract_document_structure (fun _ => "h") stubBackend [] (String.mk (List.replicate 1001 'a'))).result ∧
     extract_document_structure (fun _ => "h") downBackend (extract_document_structure (fun _ => "h") stubBackend [] (String.mk (List.replicate 1001 'a'))).cache (String.mk (List.replicate 1001 'a' ++ ['z'])) =
      ⟨(extract_document_structure (fun _ => "h") stubBackend [] (String.mk (List.replicate 1001 'a'))).result, (extract_document_structure (fun _ => "h") stubBackend [] (String.mk (List.replicate 1001 'a'))).cache, []⟩) ∧
    (jlookup (assess_compliance_impact (fun _ => "h") stubBackend [] (String.mk (List.replicate 1001 'a')) ["finance"]).cache (create_cache_key (fun _ => "h") (pySlice (String.mk (List.replicate 1001 'a')) 500 ++ "_" ++ String.intercalate "," ["finance"]) "compliance") = some (assess_compliance_impact (fun _ => "h") stubBackend [] (String.mk (List.replicate 1001 'a')) ["finance"]).result ∧
     assess_compliance_impact (fun _ => "h") downBackend (assess_compliance_impact (fun _ => "h") stubBackend [] (String.mk (List.replicate 1001 'a')) ["finance"]).cache (String.mk (List.replicate 1001 'a' ++ ['z'])) ["finance"] =
      ⟨(assess_compliance_impact (fun _ => "h") stubBackend [] (String.mk (List.replicate 1001 'a')) ["finance"]).result, (assess_compliance_impact (fun _ => "h") stubBackend [] (String.mk (List.replicate 1001 'a')) ["finance"]).cache, []⟩) := by
  refine ⟨by decide, by decide, ?_, ?_, ?_, ?_, ?_, ?_⟩
  · exact ⟨rfl, (C3_prefix_collision_cache_hit (fun _ => "h") stubBackend downBackend [] (String.mk (List.replicate 1001 'a')) (String.mk (List.replicate 1001 'a' ++ ['z'])) (by decide)).2.2.2.2.2.2.1 (by decide) rfl⟩
  · exact ⟨rfl, (C3_prefix_collision_cache_hit (fun _ => "h") stubBackend downBackend [] (String.mk (List.replicate 1001 'a')) (String.mk (List.replicate 1001 'a' ++ ['z'])) (by decide)).2.2.2.2.2.2.2.1 "q" rfl⟩
  · exact ⟨rfl, (C3_prefix_collision_cache_hit (fun _ => "h") stubBackendMention downBackend [] (String.mk (List.replicate 1001 'a')) (String.mk (List.replicate 1001 'a' ++ ['z'])) (by decide)).2.2.2.2.2.2.2.2.1 "GDPR" rfl⟩
  · exact ⟨rfl, (C3_prefix_collision_cache_hit (fun _ => "h") stubBackend downBackend [] (String.mk (List.replicate 1001 'a')) (String.mk (List.replicate 1001 'a' ++ ['z'])) (by decide)).2.2.2.2.2.2.2.2.2.1 rfl⟩
  · exact ⟨rfl, (C3_prefix_collision_cache_hit (fun _ => "h") stubBackend downBackend [] (String.mk (List.replicate 1001 'a')) (String.mk (List.replicate 1001 'a' ++ ['z'])) (by decide)).2.2.2.2.2.2.2.2.2.2.1 rfl⟩
  · exact ⟨rfl, (C3_prefix_collision_cache_hit (fun _ => "h") stubBackend downBackend [] (String.mk (List.replicate 1001 'a')) (String.mk (List.replicate 1001 'a' ++ ['z'])) (by decide)).2.2.2.2.2.2.2.2.2.2.2 ["finance"] rfl⟩

set_option maxRecDepth 40000 in
/-- C4 counterexample: with the identity function as the hash, two documents
that differ inside their first 1000 characters (at position 501) produce the
SAME search cache key under the code's derivation — so the hashed input
cannot contain the document text's first 1000 characters, refuting the
claim's "document-text prefix hashed still being its first 1000 characters"
for the query-based kinds.  Under the spec-modelled claimed derivation
(`claimedSearchCacheKey`) the two keys differ, and the code's key for the
first document differs from the claimed one. -/
theorem C4_counterexample :
    create_cache_key (fun s => s)
      (pySlice (String.mk (List.replicate 500 'a' ++ ['b'])) 500 ++ "_" ++
        "gdpr") "search" =
    create_cache_key (fun s => s)
      (pySlice (String.mk (List.replicate 500 'a' ++ ['c'])) 500 ++ "_" ++
        "gdpr") "search" ∧
    pySlice (String.mk (List.replicate 500 'a' ++ ['b'])) 1000 ≠
      pySlice (String.mk (List.replicate 500 'a' ++ ['c'])) 1000 ∧
    claimedSearchCacheKey (fun s => s)
      (String.mk (List.replicate 500 'a' ++ ['b'])) "gdpr" ≠
    claimedSearchCacheKey (fun s => s)
      (String.mk (List.replicate 500 'a' ++ ['c'])) "gdpr" ∧
    create_cache_key (fun s => s)
      (pySlice (String.mk (List.replicate 500 'a' ++ ['b'])) 500 ++ "_" ++
        "gdpr") "search" ≠
    claimedSearchCacheKey (fun s => s)
      (String.mk (List.replicate 500 'a' ++ ['b'])) "gdpr" := by
  exact ⟨by decide, by decide, by decide, by decide⟩

/-- C4 (amended): for every hash function, document text, query/topic string
and sector list, the cache key is the analysis kind, an underscore, and the
hash of the first 1000 characters of the hashed input; the hashed input is
the document text itself for the comprehensive, summary and structure kinds,
and, for the search, tracking and compliance kinds, the string formed from
the FIRST 500 CHARACTERS of the document text, an underscore, and the
query/topic/comma-joined sector list (the combination then truncated to 1000
characters before hashing). -/
theorem C4_cache_key_derivation (md5hex : String → String)
    (text q topic : String) (sectors : List String) :
    create_cache_key md5hex text "comprehensive" =
      "comprehensive_" ++ md5hex (pySlice text 1000) ∧
    create_cache_key md5hex text "summary" =
      "summary_" ++ md5hex (pySlice text 1000) ∧
    create_cache_key md5hex text "structure" =
      "structure_" ++ md5hex (pySlice text 1000) ∧
    create_cache_key md5hex (pySlice text 500 ++ "_" ++ q) "search" =
      "search_" ++ md5hex (pySlice (pySlice text 500 ++ "_" ++ q) 1000) ∧
    create_cache_key md5hex (pySlice text 500 ++ "_" ++ topic) "tracking" =
      "tracking_" ++
        md5hex (pySlice (pySlice text 500 ++ "_" ++ topic) 1000) ∧
    create_cache_key md5hex
        (pySlice text 500 ++ "_" ++ String.intercalate "," sectors)
        "compliance" =
      "compliance_" ++ md5hex (pySlice
        (pySlice text 500 ++ "_" ++ String.intercalate "," sectors) 1000) :=
  ⟨rfl, rfl, rfl, rfl, rfl, rfl⟩

/-- C5: in `ai_powered_search`, whenever the relevance-scoring step answers
with a relevance score not exceeding 0.3, the excerpt-extraction backend call
is not made — exactly the semantic-match and relevance-scoring calls occur —
and the merged result has `is_relevant` false and an empty
`relevant_excerpts` list. -/
theorem C5_low_relevance_skips_excerpt_call (md5hex : String → String)
    (b : Backend) (cache : Cache) (document_text search_query : String)
    (sem mc rel score rc cs : JVal) (concepts : String)
    (hmiss : jlookup cache (create_cache_key md5hex
      (pySlice document_text 500 ++ "_" ++ search_query) "search") = none)
    (hsem : b.searchSemantic search_query (pySlice document_text 1500) =
      .ok sem)
    (hmc : sem.pyGet "matched_concepts" (.arr []) = .ok mc)
    (hjoin : pyJoin ", " mc = .ok concepts)
    (hrel : b.searchRelevance search_query concepts = .ok rel)
    (hscore : rel.pyGet "relevance_score" (.num 0) = .ok score)
    (hle : pyGtLit score ratPoint3 = .ok false)
    (hcat : rel.pyGet "relevance_category" (.str "Not Relevant") = .ok rc)
    (hsim : sem.pyGet "semantic_similarity_score" (.num 0) = .ok cs) :
    (ai_powered_search md5hex b cache document_text search_query).calls =
      [.semanticMatch, .relevanceScoring] ∧
    jget (ai_powered_search md5hex b cache document_text search_query).result
      "is_relevant" = some (.bool false) ∧
    jget (ai_powered_search md5hex b cache document_text search_query).result
      "relevant_excerpts" = some (.arr []) := by
  unfold ai_powered_search searchBody searchMergeResult
  simp only [hmiss, hsem, hmc, hjoin, hrel, hscore, hle, hcat, hsim]
  simp [jget, jlookup, JVal.pyGet]

/-- C5 witness: the stub backend answers similarity 0.9 but relevance 0.2
(below 0.3); the search makes exactly two backend calls, reports
`is_relevant` false and no excerpts. -/
theorem C5_witness :
    (stubBackend.searchRelevance "query" "data protection" =
      .ok (.obj [("relevance_score", .num (ratVal 1 5 (by decide)
        (by norm_num))), ("relevance_category", .str "Weak")]) ∧
     pyGtLit (.num (ratVal 1 5 (by decide) (by norm_num))) ratPoint3 =
      .ok false ∧
     jget (.obj [("matched_concepts", .arr [.str "data protection"]),
       ("semantic_similarity_score", .num (ratVal 9 10 (by decide)
         (by norm_num)))] : JVal) "semantic_similarity_score" =
      some (.num (ratVal 9 10 (by decide) (by norm_num)))) ∧
    ((ai_powered_search (fun _ => "h") stubBackend [] "some document text"
        "query").calls = [.semanticMatch, .relevanceScoring] ∧
     jget (ai_powered_search (fun _ => "h") stubBackend []
       "some document text" "query").result "is_relevant" =
       some (.bool false) ∧
     jget (ai_powered_search (fun _ => "h") stubBackend []
       "some document text" "query").result "relevant_excerpts" =
       some (.arr [])) :=
  ⟨⟨rfl, rfl, rfl⟩,
   C5_low_relevance_skips_excerpt_call (fun _ => "h") stubBackend []
     "some document text" "query"
     (.obj [("matched_concepts", .arr [.str "data protection"]),
       ("semantic_similarity_score", .num (ratVal 9 10 (by decide)
         (by norm_num)))])
     (.arr [.str "data protection"])
     (.obj [("relevance_score", .num (ratVal 1 5 (by decide) (by norm_num))),
       ("relevance_category", .str "Weak")])
     (.num (ratVal 1 5 (by decide) (by norm_num)))
     (.str "Weak")
     (.num (ratVal 9 10 (by decide) (by norm_num)))
     "data protection" rfl rfl rfl rfl rfl rfl rfl rfl rfl⟩

/-- C6: in `ai_regulatory_tracking`, whenever the detection step answers with
a falsy `mentions_regulation`, exactly one backend call is made and the
operation returns `{relevance_score: 0.0, is_related: false,
relationship_type: "None", confidence_score: <detection confidence>}`, with
the cache unchanged. -/
theorem C6_no_mention_single_call (md5hex : String → String) (b : Backend)
    (cache : Cache) (document_text regulation_topic : String)
    (det mr conf : JVal)
    (hmiss : jlookup cache (create_cache_key md5hex
      (pySlice document_text 500 ++ "_" ++ regulation_topic) "tracking") =
      none)
    (hdet : b.trackDetection regulation_topic (pySlice document_text 2000) =
      .ok det)
    (hmr : det.pyGetOpt "mentions_regulation" = .ok mr)
    (hfalse : pyTruthy mr = false)
    (hconf : det.pyGet "confidence" (.num 0) = .ok conf) :
    ai_regulatory_tracking md5hex b cache document_text regulation_topic =
      ⟨trackingEarlyResult conf, cache, [.regulationDetection]⟩ := by
  unfold ai_regulatory_tracking trackingBody
  simp only [hmiss, hdet, hmr, hfalse, hconf]
  rfl

/-- C6 witness: the stub backend's detection step answers
`mentions_regulation: false` with confidence 0.75; tracking makes exactly the
detection call and returns the early result carrying that confidence. -/
theorem C6_witness :
    (stubBackend.trackDetection "GDPR" (pySlice "doc" 2000) =
      .ok (.obj [("mentions_regulation", .bool false),
        ("confidence", .num (ratVal 3 4 (by decide) (by norm_num)))]) ∧
     pyTruthy (.bool false) = false) ∧
    ai_regulatory_tracking (fun _ => "h") stubBackend [] "doc" "GDPR" =
      ⟨trackingEarlyResult (.num (ratVal 3 4 (by decide) (by norm_num))), [],
       [.regulationDetection]⟩ :=
  ⟨⟨rfl, rfl⟩,
   C6_no_mention_single_call (fun _ => "h") stubBackend [] "doc" "GDPR"
     (.obj [("mentions_regulation", .bool false),
       ("confidence", .num (ratVal 3 4 (by decide) (by norm_num)))])
     (.bool false)
     (.num (ratVal 3 4 (by decide) (by norm_num)))
     rfl rfl rfl rfl rfl⟩

/-- C7: on `ai_regulatory_tracking`'s full four-step path (detection reports
a mention), the merged result's `confidence_score` is the detection step's
confidence, unchanged by steps 2–4; `relevance_score` is step 2's
`relationship_strength`; `related_concepts` is the detection `mention_type`
string split on "|" (the empty list when `mention_type` is absent, null or
empty); and `temporal_references` is step 3's `dates_mentioned` list
concatenated with its `deadlines` list. -/
theorem C7_full_path_merge_fields (md5hex : String → String) (b : Backend)
    (cache : Cache) (document_text regulation_topic : String)
    (dkvs rkvs tkvs ekvs : List (String × JVal)) (ds dl : List JVal)
    (rc : JVal)
    (hmiss : jlookup cache (create_cache_key md5hex
      (pySlice document_text 500 ++ "_" ++ regulation_topic) "tracking") =
      none)
    (hdet : b.trackDetection regulation_topic (pySlice document_text 2000) =
      .ok (.obj dkvs))
    (hmr : pyTruthy ((jlookup dkvs "mentions_regulation").getD .null) = true)
    (hrel : b.trackRelationship regulation_topic (pySlice document_text 1500) =
      .ok (.obj rkvs))
    (htmp : b.trackTemporal regulation_topic (pySlice document_text 2000) =
      .ok (.obj tkvs))
    (hevo : b.trackEvolution regulation_topic (pySlice document_text 2000) =
      .ok (.obj ekvs))
    (hdm : (jlookup tkvs "dates_mentioned").getD (.arr []) = .arr ds)
    (hdl : (jlookup tkvs "deadlines").getD (.arr []) = .arr dl)
    (hrc : trackingRelatedConcepts (.obj dkvs) = .ok rc) :
    (ai_regulatory_tracking md5hex b cache document_text
        regulation_topic).calls =
      [.regulationDetection, .relationshipClassification, .temporalExtraction,
       .evolutionIndicators] ∧
    jget (ai_regulatory_tracking md5hex b cache document_text
        regulation_topic).result "confidence_score" =
      some ((jlookup dkvs "confidence").getD (.num 0)) ∧
    jget (ai_regulatory_tracking md5hex b cache document_text
        regulation_topic).result "relevance_score" =
      some ((jlookup rkvs "relationship_strength").getD (.num 0)) ∧
    jget (ai_regulatory_tracking md5hex b cache document_text
        regulation_topic).result "related_concepts" = some rc ∧
    jget (ai_regulatory_tracking md5hex b cache document_text
        regulation_topic).result "temporal_references" =
      some (.arr (ds ++ dl)) ∧
    ((jlookup dkvs "mention_type" = none ∨
      jlookup dkvs "mention_type" = some .null ∨
      jlookup dkvs "mention_type" = some (.str "")) → rc = .arr []) ∧
    (∀ s, jlookup dkvs "mention_type" = some (.str s) → s ≠ "" →
      rc = .arr ((pySplitChars '|' s.data).map JVal.str)) := by
  have hsplit :
      ((jlookup dkvs "mention_type" = none ∨
        jlookup dkvs "mention_type" = some .null ∨
        jlookup dkvs "mention_type" = some (.str "")) → rc = .arr []) ∧
      (∀ s, jlookup dkvs "mention_type" = some (.str s) → s ≠ "" →
        rc = .arr ((pySplitChars '|' s.data).map JVal.str)) := by
    constructor
    · intro h
      unfold trackingRelatedConcepts at hrc
      rcases h with h | h | h <;>
        simp [JVal.pyGetOpt, JVal.pyGet, h, pyTruthy] at hrc <;>
        exact hrc.symm
    · intro s h hs
      unfold trackingRelatedConcepts at hrc
      simp [JVal.pyGetOpt, JVal.pyGet, h, pyTruthy, hs, pySplitBar] at hrc
      exact hrc.symm
  refine ⟨?_, ?_, ?_, ?_, ?_, hsplit.1, hsplit.2⟩ <;>
  · unfold ai_regulatory_tracking trackingBody trackingMergeResult
    simp only [hmiss, hdet, JVal.pyGetOpt, JVal.pyGet, hmr, hrel, htmp, hevo,
      hrc, hdm, hdl, pyListAdd]
    simp [jget, jlookup]

/-- C7 witness: the mention-detecting stub backend drives the full four-step
path; the result's confidence is the detection confidence 0.75 (not any later
step's value), relevance is step 2's strength 0.6, related concepts are the
mention-type string split on "|", and temporal references are the dates and
deadlines concatenated. -/
theorem C7_witness :
    (stubBackendMention.trackDetection "GDPR" (pySlice "doc" 2000) =
      .ok (.obj [("mentions_regulation", .bool true),
        ("mention_type", .str "direct reference|indirect reference"),
        ("confidence", .num (ratVal 3 4 (by decide) (by norm_num)))]) ∧
     trackingRelatedConcepts (.obj [("mentions_regulation", .bool true),
        ("mention_type", .str "direct reference|indirect reference"),
        ("confidence", .num (ratVal 3 4 (by decide) (by norm_num)))]) =
      .ok (.arr [.str "direct reference", .str "indirect reference"])) ∧
    ((ai_regulatory_tracking (fun _ => "h") stubBackendMention [] "doc"
        "GDPR").calls =
      [.regulationDetection, .relationshipClassification, .temporalExtraction,
       .evolutionIndicators] ∧
     jget (ai_regulatory_tracking (fun _ => "h") stubBackendMention [] "doc"
        "GDPR").result "confidence_score" =
      some (.num (ratVal 3 4 (by decide) (by norm_num))) ∧
     jget (ai_regulatory_tracking (fun _ => "h") stubBackendMention [] "doc"
        "GDPR").result "relevance_score" =
      some (.num (ratVal 3 5 (by decide) (by norm_num))) ∧
     jget (ai_regulatory_tracking (fun _ => "h") stubBackendMention [] "doc"
        "GDPR").result "related_concepts" =
      some (.arr [.str "direct reference", .str "indirect reference"]) ∧
     jget (ai_regulatory_tracking (fun _ => "h") stubBackendMention [] "doc"
        "GDPR").result "temporal_references" =
      some (.arr ([.str "2024-01-01"] ++ [.str "2025-06-30"]))) := by
  have h := C7_full_path_merge_fields (fun _ => "h") stubBackendMention []
    "doc" "GDPR"
    [("mentions_regulation", .bool true),
     ("mention_type", .str "direct reference|indirect reference"),
     ("confidence", .num (ratVal 3 4 (by decide) (by norm_num)))]
    [("relationship_type", .str "Amendment"),
     ("relationship_strength", .num (ratVal 3 5 (by decide) (by norm_num)))]
    [("dates_mentioned", .arr [.str "2024-01-01"]),
     ("deadlines", .arr [.str "2025-06-30"])]
    [("evolution_indicators", .arr [.str "expansion"]),
     ("importance", .str "High")]
    [.str "2024-01-01"] [.str "2025-06-30"]
    (.arr [.str "direct reference", .str "indirect reference"])
    rfl rfl rfl rfl rfl rfl rfl rfl rfl
  exact ⟨⟨rfl, rfl⟩, h.1, h.2.1, h.2.2.1, h.2.2.2.1, h.2.2.2.2.1⟩

/-- C8: `assess_compliance_impact` processes at most the first 3 of the
supplied sectors — every backend call it makes is tagged with a sector from
`sectors.take 3`, and every key of the returned `sector_impacts` object is
one of `sectors.take 3` — and, when the loop and the level comprehension
succeed, `overall_impact` is "High" if any processed sector's impact level is
"High", else "Medium" if any is "Medium", else "Low". -/
theorem C8_three_sector_cap_and_aggregation (md5hex : String → String)
    (b : Backend) (cache : Cache) (document_text : String)
    (sectors : List String)
    (hmiss : jlookup cache (create_cache_key md5hex
      (pySlice document_text 500 ++ "_" ++ String.intercalate "," sectors)
      "compliance") = none) :
    (∀ t ∈ (assess_compliance_impact md5hex b cache document_text
        sectors).calls,
      ∃ s, s ∈ sectors.take 3 ∧ (t = .sectorRelevance s ∨
        t = .sectorRequirements s ∨ t = .sectorComplexity s)) ∧
    (∀ m, jget (assess_compliance_impact md5hex b cache document_text
        sectors).result "sector_impacts" = some (.obj m) →
      ∀ k ∈ m.map Prod.fst, k ∈ sectors.take 3) ∧
    (∀ impacts calls0 levels,
      complianceLoop b document_text (sectors.take 3) [] =
        (.ok impacts, calls0) →
      pyImpactLevels impacts = .ok levels →
      jget (assess_compliance_impact md5hex b cache document_text
        sectors).result "overall_impact" = some (.str
          (if levels.any (fun v => jvalEqStr v "High") then "High"
           else if levels.any (fun v => jvalEqStr v "Medium") then "Medium"
           else "Low"))) := by
  obtain ⟨res, calls0, hloop⟩ : ∃ r c,
      complianceLoop b document_text (sectors.take 3) [] = (r, c) :=
    ⟨_, _, rfl⟩
  cases res with
  | error e =>
      have hout : assess_compliance_impact md5hex b cache document_text
          sectors = ⟨complianceErrorResult e, cache, calls0⟩ := by
        unfold assess_compliance_impact complianceBody
        simp only [hmiss, hloop]
      refine ⟨?_, ?_, ?_⟩
      · intro t htc
        rw [hout] at htc
        exact complianceLoop_calls_sectors b document_text _ _ t
          (by rw [hloop]; exact htc)
      · intro m hm
        rw [hout] at hm
        simp [jget, complianceErrorResult, jlookup] at hm
      · intro impacts calls1 levels h1 h2
        rw [hloop] at h1
        simp at h1
  | ok impacts =>
      obtain ⟨lv, hlv⟩ : ∃ v, pyImpactLevels impacts = v := ⟨_, rfl⟩
      cases lv with
      | error e =>
          have hout : assess_compliance_impact md5hex b cache document_text
              sectors = ⟨complianceErrorResult e, cache, calls0⟩ := by
            unfold assess_compliance_impact complianceBody
            simp only [hmiss, hloop, hlv]
          refine ⟨?_, ?_, ?_⟩
          · intro t htc
            rw [hout] at htc
            exact complianceLoop_calls_sectors b document_text _ _ t
              (by rw [hloop]; exact htc)
          · intro m hm
            rw [hout] at hm
            simp [jget, complianceErrorResult, jlookup] at hm
          · intro impacts1 calls1 levels1 h1 h2
            rw [hloop] at h1
            simp at h1
            rw [← h1.1] at h2
            rw [hlv] at h2
            simp at h2
      | ok levels =>
          have hout : assess_compliance_impact md5hex b cache document_text
              sectors = ⟨.obj [
                ("overall_impact", .str
                  (if levels.any (fun v => jvalEqStr v "High") then "High"
                   else if levels.any (fun v => jvalEqStr v "Medium") then
                     "Medium" else "Low")),
                ("sector_impacts", .obj impacts),
                ("cross_sector_requirements", .arr []),
                ("implementation_complexity", .str
                  (if levels.any (fun v => jvalEqStr v "High") then "High"
                   else if levels.any (fun v => jvalEqStr v "Medium") then
                     "Medium" else "Low")),
                ("confidence_score", .num ratPoint7)],
                dictInsert cache (create_cache_key md5hex
                  (pySlice document_text 500 ++ "_" ++
                    String.intercalate "," sectors) "compliance")
                  (.obj [
                    ("overall_impact", .str
                      (if levels.any (fun v => jvalEqStr v "High") then "High"
                       else if levels.any (fun v => jvalEqStr v "Medium") then
                         "Medium" else "Low")),
                    ("sector_impacts", .obj impacts),
                    ("cross_sector_requirements", .arr []),
                    ("implementation_complexity", .str
                      (if levels.any (fun v => jvalEqStr v "High") then "High"
                       else if levels.any (fun v => jvalEqStr v "Medium") then
                         "Medium" else "Low")),
                    ("confidence_score", .num ratPoint7)]),
                calls0⟩ := by
            unfold assess_compliance_impact complianceBody
            simp only [hmiss, hloop, hlv]
          refine ⟨?_, ?_, ?_⟩
          · intro t htc
            rw [hout] at htc
            exact complianceLoop_calls_sectors b document_text _ _ t
              (by rw [hloop]; exact htc)
          · intro m hm
            rw [hout] at hm
            simp [jget, jlookup] at hm
            intro k hk
            rcases complianceLoop_impacts_keys b document_text
                (sectors.take 3) [] impacts calls0 hloop k
                (by rw [hm]; exact hk) with h1 | h1
            · simp at h1
            · exact h1
          · intro impacts1 calls1 levels1 h1 h2
            rw [hloop] at h1
            simp at h1
            rw [← h1.1] at h2
            rw [hlv] at h2
            simp at h2
            rw [hout]
            rw [← h2]
            simp [jget, jlookup]

/-- C8 witness: with five sectors supplied and the stub backend assessing
every relevant sector's complexity as "High", the operation makes 9 backend
calls (3 per processed sector, none for the 4th and 5th sectors) and reports
overall impact "High"; the theorem's cap and aggregation statements hold at
this input. -/
theorem C8_witness :
    (jlookup ([] : Cache) (create_cache_key (fun _ => "h")
      (pySlice "doc" 500 ++ "_" ++
        String.intercalate "," ["a", "b", "c", "d", "e"]) "compliance") =
      none ∧
     (assess_compliance_impact (fun _ => "h") stubBackend [] "doc"
       ["a", "b", "c", "d", "e"]).calls.length = 9 ∧
     jget (assess_compliance_impact (fun _ => "h") stubBackend [] "doc"
       ["a", "b", "c", "d", "e"]).result "overall_impact" =
       some (.str "High")) ∧
    ((∀ t ∈ (assess_compliance_impact (fun _ => "h") stubBackend [] "doc"
        ["a", "b", "c", "d", "e"]).calls,
      ∃ s, s ∈ (["a", "b", "c", "d", "e"] : List String).take 3 ∧
        (t = .sectorRelevance s ∨ t = .sectorRequirements s ∨
         t = .sectorComplexity s)) ∧
    (∀ m, jget (assess_compliance_impact (fun _ => "h") stubBackend [] "doc"
        ["a", "b", "c", "d", "e"]).result "sector_impacts" =
        some (.obj m) →
      ∀ k ∈ m.map Prod.fst,
        k ∈ (["a", "b", "c", "d", "e"] : List String).take 3) ∧
    (∀ impacts calls0 levels,
      complianceLoop stubBackend "doc"
        ((["a", "b", "c", "d", "e"] : List String).take 3) [] =
        (.ok impacts, calls0) →
      pyImpactLevels impacts = .ok levels →
      jget (assess_compliance_impact (fun _ => "h") stubBackend [] "doc"
        ["a", "b", "c", "d", "e"]).result "overall_impact" = some (.str
          (if levels.any (fun v => jvalEqStr v "High") then "High"
           else if levels.any (fun v => jvalEqStr v "Medium") then "Medium"
           else "Low")))) :=
  ⟨⟨rfl, rfl, rfl⟩,
   C8_three_sector_cap_and_aggregation (fun _ => "h") stubBackend [] "doc"
     ["a", "b", "c", "d", "e"] rfl⟩

/-- C9: for each of the six operations, when the body of its `try` block
fails — any backend call raising, any response failing to parse, or any
merge-time type error, all recovered by the same `except` handler — the
operation returns normally with its inline degraded result: an `error` string
field describing the failure, and the confidence-like fields at 0.0 (the
comprehensive fallback's `overall_confidence`, search's and tracking's
`relevance_score`, and the others' `confidence_score`), with `is_relevant`
and `is_related` false where present. -/
theorem C9_backend_failure_degraded_result (md5hex : String → String)
    (b : Backend) (cache : Cache) :
    (∀ document_text e calls',
      ¬(document_text = "" ∨ pyLen (pyStrip document_text) < 50) →
      jlookup cache (create_cache_key md5hex document_text "comprehensive") =
        none →
      comprehensiveBody b cache
        (create_cache_key md5hex document_text "comprehensive")
        document_text = (.error e, calls') →
      comprehensive_document_analysis md5hex b cache document_text =
        ⟨create_fallback_analysis ("AI analysis failed: " ++ e), cache,
         calls'⟩ ∧
      jget (create_fallback_analysis ("AI analysis failed: " ++ e)) "error" =
        some (.str ("AI analysis failed: " ++ e)) ∧
      jget (create_fallback_analysis ("AI analysis failed: " ++ e))
        "overall_confidence" = some (.num 0)) ∧
    (∀ document_text search_query e calls',
      jlookup cache (create_cache_key md5hex
        (pySlice document_text 500 ++ "_" ++ search_query) "search") = none →
      searchBody b cache (create_cache_key md5hex
        (pySlice document_text 500 ++ "_" ++ search_query) "search")
        document_text search_query = (.error e, calls') →
      ai_powered_search md5hex b cache document_text search_query =
        ⟨searchErrorResult e, cache, calls'⟩ ∧
      jget (searchErrorResult e) "error" = some (.str e) ∧
      jget (searchErrorResult e) "relevance_score" = some (.num 0) ∧
      jget (searchErrorResult e) "is_relevant" = some (.bool false)) ∧
    (∀ document_text regulation_topic e calls',
      jlookup cache (create_cache_key md5hex
        (pySlice document_text 500 ++ "_" ++ regulation_topic) "tracking") =
        none →
      trackingBody b cache (create_cache_key md5hex
        (pySlice document_text 500 ++ "_" ++ regulation_topic) "tracking")
        document_text regulation_topic = (.error e, calls') →
      ai_regulatory_tracking md5hex b cache document_text regulation_topic =
        ⟨trackingErrorResult e, cache, calls'⟩ ∧
      jget (trackingErrorResult e) "error" = some (.str e) ∧
      jget (trackingErrorResult e) "relevance_score" = some (.num 0) ∧
      jget (trackingErrorResult e) "is_related" = some (.bool false)) ∧
    (∀ document_text e calls',
      jlookup cache (create_cache_key md5hex document_text "summary") =
        none →
      summaryBody b cache (create_cache_key md5hex document_text "summary")
        document_text = (.error e, calls') →
      generate_ai_summary md5hex b cache document_text =
        ⟨summaryErrorResult e, cache, calls'⟩ ∧
      jget (summaryErrorResult e) "error" = some (.str e) ∧
      jget (summaryErrorResult e) "confidence_score" = some (.num 0)) ∧
    (∀ document_text e calls',
      jlookup cache (create_cache_key md5hex document_text "structure") =
        none →
      structureBody b cache (create_cache_key md5hex document_text
        "structure") document_text = (.error e, calls') →
      extract_document_structure md5hex b cache document_text =
        ⟨structureErrorResult e, cache, calls'⟩ ∧
      jget (structureErrorResult e) "error" = some (.str e) ∧
      jget (structureErrorResult e) "confidence_score" = some (.num 0)) ∧
    (∀ document_text sectors e calls',
      jlookup cache (create_cache_key md5hex
        (pySlice document_text 500 ++ "_" ++ String.intercalate "," sectors)
        "compliance") = none →
      complianceBody b cache (create_cache_key md5hex
        (pySlice document_text 500 ++ "_" ++ String.intercalate "," sectors)
        "compliance") document_text sectors = (.error e, calls') →
      assess_compliance_impact md5hex b cache document_text sectors =
        ⟨complianceErrorResult e, cache, calls'⟩ ∧
      jget (complianceErrorResult e) "error" = some (.str e) ∧
      jget (complianceErrorResult e) "confidence_score" = some (.num 0)) := by
  refine ⟨?_, ?_, ?_, ?_, ?_, ?_⟩
  · intro document_text e calls' hlen hmiss hbody
    refine ⟨?_, rfl, rfl⟩
    unfold comprehensive_document_analysis
    rw [if_neg hlen]
    simp only [hmiss, hbody]
  · intro document_text search_query e calls' hmiss hbody
    refine ⟨?_, rfl, rfl, rfl⟩
    unfold ai_powered_search
    simp only [hmiss, hbody]
  · intro document_text regulation_topic e calls' hmiss hbody
    refine ⟨?_, rfl, rfl, rfl⟩
    unfold ai_regulatory_tracking
    simp only [hmiss, hbody]
  · intro document_text e calls' hmiss hbody
    refine ⟨?_, rfl, rfl⟩
    unfold generate_ai_summary
    simp only [hmiss, hbody]
  · intro document_text e calls' hmiss hbody
    refine ⟨?_, rfl, rfl⟩
    unfold extract_document_structure
    simp only [hmiss, hbody]
  · intro document_text sectors e calls' hmiss hbody
    refine ⟨?_, rfl, rfl⟩
    unfold assess_compliance_impact
    simp only [hmiss, hbody]

/-- C9 witness: on the always-failing backend, each of the six operations
returns its degraded result with the `error` field set and zero confidence,
raising nothing. -/
theorem C9_witness :
    (comprehensiveBody downBackend []
      (create_cache_key (fun _ => "h") (String.mk (List.replicate 60 'x'))
        "comprehensive") (String.mk (List.replicate 60 'x')) =
      (.error "backend unavailable", [.comprehensiveAnalysis]) ∧
     comprehensive_document_analysis (fun _ => "h") downBackend []
       (String.mk (List.replicate 60 'x')) =
      ⟨create_fallback_analysis ("AI analysis failed: " ++
        "backend unavailable"), [], [.comprehensiveAnalysis]⟩) ∧
    (searchBody downBackend []
      (create_cache_key (fun _ => "h") (pySlice "doc" 500 ++ "_" ++ "q")
        "search") "doc" "q" =
      (.error "backend unavailable", [.semanticMatch]) ∧
     ai_powered_search (fun _ => "h") downBackend [] "doc" "q" =
      ⟨searchErrorResult "backend unavailable", [], [.semanticMatch]⟩) ∧
    (trackingBody downBackend []
      (create_cache_key (fun _ => "h") (pySlice "doc" 500 ++ "_" ++ "GDPR")
        "tracking") "doc" "GDPR" =
      (.error "backend unavailable", [.regulationDetection]) ∧
     ai_regulatory_tracking (fun _ => "h") downBackend [] "doc" "GDPR" =
      ⟨trackingErrorResult "backend unavailable", [],
       [.regulationDetection]⟩) ∧
    (summaryBody downBackend []
      (create_cache_key (fun _ => "h") "doc" "summary") "doc" =
      (.error "backend unavailable", [.documentTypeStep]) ∧
     generate_ai_summary (fun _ => "h") downBackend [] "doc" =
      ⟨summaryErrorResult "backend unavailable", [], [.documentTypeStep]⟩) ∧
    (structureBody downBackend []
      (create_cache_key (fun _ => "h") "doc" "structure") "doc" =
      (.error "backend unavailable", [.sectionDetection]) ∧
     extract_document_structure (fun _ => "h") downBackend [] "doc" =
      ⟨structureErrorResult "backend unavailable", [], [.sectionDetection]⟩) ∧
    (complianceBody downBackend []
      (create_cache_key (fun _ => "h")
        (pySlice "doc" 500 ++ "_" ++ String.intercalate "," ["finance"])
        "compliance") "doc" ["finance"] =
      (.error "backend unavailable", [.sectorRelevance "finance"]) ∧
     assess_compliance_impact (fun _ => "h") downBackend [] "doc"
       ["finance"] =
      ⟨complianceErrorResult "backend unavailable", [],
       [.sectorRelevance "finance"]⟩) :=
  ⟨⟨rfl, ((C9_backend_failure_degraded_result (fun _ => "h") downBackend
      []).1 (String.mk (List.replicate 60 'x')) "backend unavailable"
      [.comprehensiveAnalysis] (by decide) rfl rfl).1⟩,
   ⟨rfl, ((C9_backend_failure_degraded_result (fun _ => "h") downBackend
      []).2.1 "doc" "q" "backend unavailable" [.semanticMatch] rfl rfl).1⟩,
   ⟨rfl, ((C9_backend_failure_degraded_result (fun _ => "h") downBackend
      []).2.2.1 "doc" "GDPR" "backend unavailable" [.regulationDetection]
      rfl rfl).1⟩,
   ⟨rfl, ((C9_backend_failure_degraded_result (fun _ => "h") downBackend
      []).2.2.2.1 "doc" "backend unavailable" [.documentTypeStep]
      rfl rfl).1⟩,
   ⟨rfl, ((C9_backend_failure_degraded_result (fun _ => "h") downBackend
      []).2.2.2.2.1 "doc" "backend unavailable" [.sectionDetection]
      rfl rfl).1⟩,
   ⟨rfl, ((C9_backend_failure_degraded_result (fun _ => "h") downBackend
      []).2.2.2.2.2 "doc" ["finance"] "backend unavailable"
      [.sectorRelevance "finance"] rfl rfl).1⟩⟩

/-- C10: no error or degraded result is ever written to the cache.  For each
of the six operations, a call whose `try` body fails leaves the cache exactly
as it was, as does `ai_regulatory_tracking`'s early "not related" return; a
subsequent call with the same arguments therefore behaves exactly like a call
on the original cache — it contacts the backend again rather than being
served the failed result. -/
theorem C10_errors_not_cached (md5hex : String → String) (b : Backend)
    (cache : Cache) :
    (∀ document_text e calls',
      ¬(document_text = "" ∨ pyLen (pyStrip document_text) < 50) →
      jlookup cache (create_cache_key md5hex document_text "comprehensive") =
        none →
      comprehensiveBody b cache
        (create_cache_key md5hex document_text "comprehensive")
        document_text = (.error e, calls') →
      (comprehensive_document_analysis md5hex b cache document_text).cache =
        cache ∧
      ∀ b', comprehensive_document_analysis md5hex b'
          (comprehensive_document_analysis md5hex b cache document_text).cache
          document_text =
        comprehensive_document_analysis md5hex b' cache document_text) ∧
    (∀ document_text search_query e calls',
      jlookup cache (create_cache_key md5hex
        (pySlice document_text 500 ++ "_" ++ search_query) "search") = none →
      searchBody b cache (create_cache_key md5hex
        (pySlice document_text 500 ++ "_" ++ search_query) "search")
        document_text search_query = (.error e, calls') →
      (ai_powered_search md5hex b cache document_text search_query).cache =
        cache ∧
      ∀ b', ai_powered_search md5hex b'
          (ai_powered_search md5hex b cache document_text search_query).cache
          document_text search_query =
        ai_powered_search md5hex b' cache document_text search_query) ∧
    (∀ document_text regulation_topic e calls',
      jlookup cache (create_cache_key md5hex
        (pySlice document_text 500 ++ "_" ++ regulation_topic) "tracking") =
        none →
      trackingBody b cache (create_cache_key md5hex
        (pySlice document_text 500 ++ "_" ++ regulation_topic) "tracking")
        document_text regulation_topic = (.error e, calls') →
      (ai_regulatory_tracking md5hex b cache document_text
        regulation_topic).cache = cache ∧
      ∀ b', ai_regulatory_tracking md5hex b'
          (ai_regulatory_tracking md5hex b cache document_text
            regulation_topic).cache document_text regulation_topic =
        ai_regulatory_tracking md5hex b' cache document_text
          regulation_topic) ∧
    (∀ document_text regulation_topic det mr conf,
      jlookup cache (create_cache_key md5hex
        (pySlice document_text 500 ++ "_" ++ regulation_topic) "tracking") =
        none →
      b.trackDetection regulation_topic (pySlice document_text 2000) =
        .ok det →
      det.pyGetOpt "mentions_regulation" = .ok mr →
      pyTruthy mr = false →
      det.pyGet "confidence" (.num 0) = .ok conf →
      (ai_regulatory_tracking md5hex b cache document_text
        regulation_topic).cache = cache ∧
      ∀ b', ai_regulatory_tracking md5hex b'
          (ai_regulatory_tracking md5hex b cache document_text
            regulation_topic).cache document_text regulation_topic =
        ai_regulatory_tracking md5hex b' cache document_text
          regulation_topic) ∧
    (∀ document_text e calls',
      jlookup cache (create_cache_key md5hex document_text "summary") =
        none →
      summaryBody b cache (create_cache_key md5hex document_text "summary")
        document_text = (.error e, calls') →
      (generate_ai_summary md5hex b cache document_text).cache = cache ∧
      ∀ b', generate_ai_summary md5hex b'
          (generate_ai_summary md5hex b cache document_text).cache
          document_text =
        generate_ai_summary md5hex b' cache document_text) ∧
    (∀ document_text e calls',
      jlookup cache (create_cache_key md5hex document_text "structure") =
        none →
      structureBody b cache (create_cache_key md5hex document_text
        "structure") document_text = (.error e, calls') →
      (extract_document_structure md5hex b cache document_text).cache =
        cache ∧
      ∀ b', extract_document_structure md5hex b'
          (extract_document_structure md5hex b cache document_text).cache
          document_text =
        extract_document_structure md5hex b' cache document_text) ∧
    (∀ document_text sectors e calls',
      jlookup cache (create_cache_key md5hex
        (pySlice document_text 500 ++ "_" ++ String.intercalate "," sectors)
        "compliance") = none →
      complianceBody b cache (create_cache_key md5hex
        (pySlice document_text 500 ++ "_" ++ String.intercalate "," sectors)
        "compliance") document_text sectors = (.error e, calls') →
      (assess_compliance_impact md5hex b cache document_text sectors).cache =
        cache ∧
      ∀ b', assess_compliance_impact md5hex b'
          (assess_compliance_impact md5hex b cache document_text
            sectors).cache document_text sectors =
        assess_compliance_impact md5hex b' cache document_text sectors) := by
  refine ⟨?_, ?_, ?_, ?_, ?_, ?_, ?_⟩
  · intro document_text e calls' hlen hmiss hbody
    have hc : (comprehensive_document_analysis md5hex b cache
        document_text).cache = cache := by
      unfold comprehensive_document_analysis
      rw [if_neg hlen]
      simp only [hmiss, hbody]
    exact ⟨hc, fun b' => by rw [hc]⟩
  · intro document_text search_query e calls' hmiss hbody
    have hc : (ai_powered_search md5hex b cache document_text
        search_query).cache = cache := by
      unfold ai_powered_search
      simp only [hmiss, hbody]
    exact ⟨hc, fun b' => by rw [hc]⟩
  · intro document_text regulation_topic e calls' hmiss hbody
    have hc : (ai_regulatory_tracking md5hex b cache document_text
        regulation_topic).cache = cache := by
      unfold ai_regulatory_tracking
      simp only [hmiss, hbody]
    exact ⟨hc, fun b' => by rw [hc]⟩
  · intro document_text regulation_topic det mr conf hmiss hdet hmr hfalse
      hconf
    have hc : (ai_regulatory_tracking md5hex b cache document_text
        regulation_topic).cache = cache := by
      unfold ai_regulatory_tracking trackingBody
      simp only [hmiss, hdet, hmr, hfalse, hconf]
      rfl
    exact ⟨hc, fun b' => by rw [hc]⟩
  · intro document_text e calls' hmiss hbody
    have hc : (generate_ai_summary md5hex b cache document_text).cache =
        cache := by
      unfold generate_ai_summary
      simp only [hmiss, hbody]
    exact ⟨hc, fun b' => by rw [hc]⟩
  · intro document_text e calls' hmiss hbody
    have hc : (extract_document_structure md5hex b cache
        document_text).cache = cache := by
      unfold extract_document_structure
      simp only [hmiss, hbody]
    exact ⟨hc, fun b' => by rw [hc]⟩
  · intro document_text sectors e calls' hmiss hbody
    have hc : (assess_compliance_impact md5hex b cache document_text
        sectors).cache = cache := by
      unfold assess_compliance_impact
      simp only [hmiss, hbody]
    exact ⟨hc, fun b' => by rw [hc]⟩

/-- C10 witness: after a failed search call and after a "not related"
tracking return, the cache is unchanged (still empty), and the repeated call
behaves exactly like a fresh call — here making its backend calls again
rather than returning the failed result from a cache. -/
theorem C10_witness :
    (searchBody downBackend []
      (create_cache_key (fun _ => "h") (pySlice "doc" 500 ++ "_" ++ "q")
        "search") "doc" "q" =
      (.error "backend unavailable", [.semanticMatch]) ∧
     (ai_powered_search (fun _ => "h") downBackend [] "doc" "q").cache =
       [] ∧
     (∀ b', ai_powered_search (fun _ => "h") b'
        (ai_powered_search (fun _ => "h") downBackend [] "doc" "q").cache
        "doc" "q" =
       ai_powered_search (fun _ => "h") b' [] "doc" "q") ∧
     (ai_powered_search (fun _ => "h") downBackend
       (ai_powered_search (fun _ => "h") downBackend [] "doc" "q").cache
       "doc" "q").calls ≠ []) ∧
    (pyTruthy (.bool false) = false ∧
     (ai_regulatory_tracking (fun _ => "h") stubBackend [] "doc"
       "GDPR").cache = [] ∧
     (∀ b', ai_regulatory_tracking (fun _ => "h") b'
        (ai_regulatory_tracking (fun _ => "h") stubBackend [] "doc"
          "GDPR").cache "doc" "GDPR" =
       ai_regulatory_tracking (fun _ => "h") b' [] "doc" "GDPR") ∧
     (ai_regulatory_tracking (fun _ => "h") stubBackend
       (ai_regulatory_tracking (fun _ => "h") stubBackend [] "doc"
         "GDPR").cache "doc" "GDPR").calls ≠ []) := by
  have hs := (C10_errors_not_cached (fun _ => "h") downBackend []).2.1
    "doc" "q" "backend unavailable" [.semanticMatch] rfl rfl
  have ht := ((C10_errors_not_cached (fun _ => "h") stubBackend []).2.2.2.1 :
    ∀ document_text regulation_topic det mr conf, _)
    "doc" "GDPR"
    (.obj [("mentions_regulation", .bool false),
      ("confidence", .num (ratVal 3 4 (by decide) (by norm_num)))])
    (.bool false)
    (.num (ratVal 3 4 (by decide) (by norm_num)))
    rfl rfl rfl rfl rfl
  exact ⟨⟨rfl, hs.1, hs.2, by decide⟩, ⟨rfl, ht.1, ht.2, by decide⟩⟩

end LegalAI
